import Mathlib

/-!
Verification development for the lore_gen repository (generator.py,
translator.py, utils/api_client.py, config/settings.py).

The Python code is shallowly embedded: Python values appearing in the JSON
data files are modelled by the inductive type `PyVal`; the filesystem is an
association list from paths to raw text; the LLM endpoint and the Python
`json` module (`json.loads` / `json.dumps`) are external collaborators and
are passed in as function parameters; suspensions, outbound requests and
file writes are recorded as explicit events.  Machine floats that only ever
get compared with `0` (temperatures, delays) are modelled as rationals.
-/

namespace LoreGen

/-- Python values as they occur in the JSON configuration and data files.
`vnone` is Python `None`. -/
inductive PyVal where
  | vstr (s : String)
  | vint (n : Int)
  | vbool (b : Bool)
  | vnone
  | vlist (xs : List PyVal)
  | vdict (fs : List (String × PyVal))

/-- A Python dict whose keys are strings, in insertion order. -/
abbrev PyDict := List (String × PyVal)

/-- First binding of a key in a dict (Python dict lookup; model dicts are
assumed key-unique like real Python dicts, lookup takes the first hit). -/
def dictLookup (fs : PyDict) (k : String) : Option PyVal :=
  match fs with
  | [] => none
  | (k', v) :: rest => if k' = k then some v else dictLookup rest k

/-- `k in d` on a dict. -/
def dictContains (fs : PyDict) (k : String) : Bool :=
  match fs with
  | [] => false
  | (k', _) :: rest => k' = k || dictContains rest k

/-- Python dict assignment `d[k] = v`: updates the first binding in place,
appends when the key is absent. -/
def dictSet (fs : PyDict) (k : String) (v : PyVal) : PyDict :=
  match fs with
  | [] => [(k, v)]
  | (k', v') :: rest => if k' = k then (k, v) :: rest else (k', v') :: dictSet rest k v

/-- `d.get(k, default)` on a dict. -/
def dictGetD (fs : PyDict) (k : String) (d : PyVal) : PyVal :=
  match dictLookup fs k with
  | some v => v
  | none => d

/-- Assignment on a string-valued dict (used for the language → path result
mapping of `generate_data`). -/
def dictSetS (fs : List (String × String)) (k v : String) : List (String × String) :=
  match fs with
  | [] => [(k, v)]
  | (k', v') :: rest => if k' = k then (k, v) :: rest else (k', v') :: dictSetS rest k v

/-- Python substring test `needle in hay` on strings. -/
def strContains (hay needle : String) : Bool :=
  decide (needle.data <:+: hay.data)

/-- The whitespace set of Python `str.strip()`, approximated by ASCII
whitespace (no claim depends on the exact set). -/
def isSpaceChar (c : Char) : Bool :=
  c = ' ' || c = '\t' || c = '\n' || c = '\r'

/-- Model of Python `str.strip()`: drop leading and trailing whitespace. -/
def pyStrip (s : String) : String :=
  ⟨((s.data.dropWhile isSpaceChar).reverse.dropWhile isSpaceChar).reverse⟩

/-- Python `s.startswith(pre)`. -/
def strStartsWith (s pre : String) : Bool :=
  pre.data.isPrefixOf s.data

/-- Python `s.endswith(suf)`. -/
def strEndsWith (s suf : String) : Bool :=
  suf.data.reverse.isPrefixOf s.data.reverse

/-- Python slicing `s[n:]`. -/
def strDrop (s : String) (n : Nat) : String :=
  ⟨s.data.drop n⟩

/-- Python slicing `s[:-n]`. -/
def strDropRight (s : String) (n : Nat) : String :=
  ⟨(s.data.reverse.drop n).reverse⟩

mutual
/-- Model of Python `str(value)`.  For strings it is the string itself, for
containers it is the `repr`-style rendering (quoting is simplified: no
escaping inside strings; no claim depends on the exact container text). -/
def pyStr : PyVal → String
  | .vstr s => s
  | v => pyRepr v

/-- Model of Python `repr(value)` as used when containers are stringified. -/
def pyRepr : PyVal → String
  | .vstr s => "\x27" ++ s ++ "\x27"
  | .vint n => toString n
  | .vbool b => if b then "True" else "False"
  | .vnone => "None"
  | .vlist xs => "[" ++ String.intercalate ", " (pyReprList xs) ++ "]"
  | .vdict fs => "\x7b" ++ String.intercalate ", " (pyReprFields fs) ++ "\x7d"

/-- `repr` of the elements of a list. -/
def pyReprList : List PyVal → List String
  | [] => []
  | x :: xs => pyRepr x :: pyReprList xs

/-- `repr` of the bindings of a dict. -/
def pyReprFields : List (String × PyVal) → List String
  | [] => []
  | (k, v) :: fs => ("\x27" ++ k ++ "\x27: " ++ pyRepr v) :: pyReprFields fs
end

mutual
/-- Structural equality of Python values (Python `==` restricted to the
value shapes in this code base). -/
def pyBeq : PyVal → PyVal → Bool
  | .vstr a, .vstr b => a == b
  | .vint a, .vint b => a == b
  | .vbool a, .vbool b => a == b
  | .vnone, .vnone => true
  | .vlist xs, .vlist ys => pyBeqList xs ys
  | .vdict fs, .vdict gs => pyBeqFields fs gs
  | _, _ => false

/-- Elementwise equality of Python lists. -/
def pyBeqList : List PyVal → List PyVal → Bool
  | [], [] => true
  | x :: xs, y :: ys => pyBeq x y && pyBeqList xs ys
  | _, _ => false

/-- Bindingwise equality of Python dicts (ordered, as in the model). -/
def pyBeqFields : List (String × PyVal) → List (String × PyVal) → Bool
  | [], [] => true
  | (k, v) :: fs, (k', v') :: gs => k == k' && pyBeq v v' && pyBeqFields fs gs
  | _, _ => false
end

/-- Python membership `k in v` for a string `k`: key membership on dicts,
element membership on lists, substring on strings; `TypeError` otherwise. -/
def pyIn (k : String) (v : PyVal) : Except String Bool :=
  match v with
  | .vdict fs => .ok (dictContains fs k)
  | .vlist xs => .ok (xs.any (fun x => pyBeq x (.vstr k)))
  | .vstr s => .ok (strContains s k)
  | _ => .error "TypeError: argument of type is not iterable"

/-- Python subscript `v[k]` for a string key: dict lookup (`KeyError` when
absent), `TypeError` on any non-dict. -/
def pyGet (v : PyVal) (k : String) : Except String PyVal :=
  match v with
  | .vdict fs =>
      match dictLookup fs k with
      | some x => .ok x
      | none => .error ("KeyError: " ++ k)
  | _ => .error "TypeError: subscript with str key"

/-- Python `v.get(k, default)`: only dicts have `.get` (`AttributeError`
otherwise). -/
def pyGetD (v : PyVal) (k : String) (d : PyVal) : Except String PyVal :=
  match v with
  | .vdict fs => .ok (dictGetD fs k d)
  | _ => .error "AttributeError: get"

/-- The value must be a Python string (`TypeError` otherwise); used where the
source passes a value to an API that requires `str`. -/
def asStr (v : PyVal) : Except String String :=
  match v with
  | .vstr s => .ok s
  | _ => .error "TypeError: expected str"

/-- One step of Python `str.replace` scanning, with explicit fuel; the fuel
is always instantiated with the length of the scanned text, which bounds the
number of steps.  `p :: ps` is the (non-empty) pattern. -/
def replaceFuel (p : Char) (ps rep : List Char) : Nat → List Char → List Char
  | _, [] => []
  | 0, s => s
  | fuel + 1, c :: cs =>
      if (p :: ps).isPrefixOf (c :: cs) then
        rep ++ replaceFuel p ps rep fuel (cs.drop ps.length)
      else
        c :: replaceFuel p ps rep fuel cs

/-- Model of Python `str.replace(old, new)` on character lists (left-to-right,
non-overlapping).  The empty-pattern case never arises in this code base
(every pattern contains braces) and is modelled as the identity. -/
def replaceList (pat rep s : List Char) : List Char :=
  match pat with
  | [] => s
  | p :: ps => replaceFuel p ps rep s.length s

/-- Model of Python `str.replace(old, new)`. -/
def pyReplace (s old new : String) : String :=
  ⟨replaceList old.data new.data s.data⟩

/-- The filesystem: a mapping from paths to raw file text. -/
abbrev Files := List (String × String)

/-- Read a file (`open(path).read()`); `none` is `FileNotFoundError`. -/
def readFile (fs : Files) (path : String) : Option String :=
  match fs with
  | [] => none
  | (p, s) :: rest => if p = path then some s else readFile rest path

/-- `os.path.exists(path)` restricted to the files this program touches. -/
def fileExists (fs : Files) (path : String) : Bool :=
  (readFile fs path).isSome

/-- Write a file (`open(path, "w")`): truncate when present, create when
absent.  Insertion order of new paths is append, as nothing depends on it. -/
def writeFile (fs : Files) (path text : String) : Files :=
  match fs with
  | [] => [(path, text)]
  | (p, s) :: rest => if p = path then (path, text) :: rest else (p, s) :: writeFile rest path text

/-- Observable effects of a driver run: an outbound LLM request, a pacing
suspension (`asyncio.sleep`), or a file write. -/
inductive Ev where
  | req (prompt : String)
  | sleep (d : ℚ)
  | write (path : String)

/-- The paths written during a run, in order. -/
def writtenPaths (tr : List Ev) : List String :=
  match tr with
  | [] => []
  | .write p :: rest => p :: writtenPaths rest
  | _ :: rest => writtenPaths rest

/-- `true` on request events. -/
def Ev.isReq : Ev → Bool
  | .req _ => true
  | _ => false

/-- `true` on sleep events. -/
def Ev.isSleep : Ev → Bool
  | .sleep _ => true
  | _ => false

/-!  ## config/settings.py  -/

/-- The `Settings` dataclass (`src/config/settings.py`), after environment
loading.  Floats that are only ever compared with `0` are rationals.  The two
`openai_translation_*` attributes are read by `src/translator.py` although the
shipped dataclass does not declare them; the model carries them as ordinary
configuration inputs. -/
structure Settings where
  openai_api_key : String
  openai_model : String
  openai_temperature : ℚ
  openai_max_tokens : Nat
  output_dir : String
  default_language : String
  languages_config_path : String
  zodiac_config_path : String
  batch_size : Nat
  delay_between_requests : ℚ
  debug_mode : Bool
  openai_translation_model : String
  openai_translation_max_tokens : Nat

/-- `Settings.load_languages` (settings.py lines 63-71): read and parse the
languages registry.  `loads` is the external `json` module. -/
def load_languages (S : Settings) (loads : String → Option PyVal) (fs : Files) :
    Except String PyVal :=
  match readFile fs S.languages_config_path with
  | none => .error ("Languages config file not found: " ++ S.languages_config_path)
  | some txt =>
      match loads txt with
      | none => .error ("Invalid JSON in languages config: " ++ S.languages_config_path)
      | some v => .ok v

/-- `Settings.get_language_description` (settings.py lines 73-89). -/
def get_language_description (S : Settings) (loads : String → Option PyVal) (fs : Files)
    (language_code : Option String) : Except String String := do
  let lc := match language_code with
    | none => S.default_language
    | some c => c
  let languages ← load_languages S loads fs
  let mem ← pyIn lc languages
  if mem = false then
    .error ("Language code \x27" ++ lc ++ "\x27 not found in config")
  else if lc = "eng" then
    .ok "Generate content in English with clear, detailed astrological knowledge suitable for English-speaking audience."
  else if lc = "rus" then
    .ok "Генерируй контент на русском языке с подробными астрологическими знаниями, подходящими для русскоязычной аудитории."
  else do
    let entry ← pyGet languages lc
    let nm ← pyGet entry "name"
    .ok ("Generate content in " ++ pyStr nm ++ " language.")

/-!  ## utils/api_client.py  -/

/-- JSON payload entry values for the chat-completions request body. -/
inductive PayloadV where
  | pstr (s : String)
  | pnum (q : ℚ)
  | pnat (n : Nat)
  | pmsgs (ms : List (String × String))

/-- The request payload built by `LLMClient.make_request`
(api_client.py lines 42-55): base payload with `model`, a single user
message and `temperature`; newer model families receive the token limit as
`max_completion_tokens` (and `gpt-5-mini` drops `temperature`), all other
models receive `max_tokens`. -/
def make_request_payload (model prompt : String) (temperature : ℚ) (max_tokens : Nat) :
    List (String × PayloadV) :=
  let payload : List (String × PayloadV) :=
    [("model", .pstr model),
     ("messages", .pmsgs [("user", prompt)]),
     ("temperature", .pnum temperature)]
  if strContains model "gpt-4o" || strContains model "gpt-5" then
    let payload := payload ++ [("max_completion_tokens", .pnat max_tokens)]
    if strContains model "gpt-5-mini" then
      payload.filter (fun kv => kv.1 ≠ "temperature")
    else payload
  else
    payload ++ [("max_tokens", .pnat max_tokens)]

/-- Key lookup in a payload. -/
def payloadLookup (p : List (String × PayloadV)) (k : String) : Option PayloadV :=
  match p with
  | [] => none
  | (k', v) :: rest => if k' = k then some v else payloadLookup rest k

/-!  ## generator.py: template filling  -/

/-- Python truthiness of the optional `language_code` argument
(`if language_code:`): `None` and the empty string are falsy. -/
def optStrTruthy (lc : Option String) : Bool :=
  match lc with
  | none => false
  | some s => s ≠ ""

/-- The value must be a dict (`AttributeError` on `.items()` otherwise). -/
def asDict (v : PyVal) : Except String PyDict :=
  match v with
  | .vdict fs => .ok fs
  | _ => .error "AttributeError: items"

/-- The replacement text for a record value in `fill_template_placeholders`
(generator.py lines 86-91 and 96-101): containers via `str(value)`, `None`
as the literal `"null"`, anything else via `str(value)`. -/
def valueText (v : PyVal) : String :=
  match v with
  | .vdict _ => pyStr v
  | .vlist _ => pyStr v
  | .vnone => "null"
  | _ => pyStr v

/-- The language block of `fill_template_placeholders` (generator.py lines
67-73), entered when the language code is a key of the loaded registry:
replaces `{language_name}`, `{locale_code}` and the legacy aliases
`{name}`, `{locale}`. -/
def langSection (cfg : PyVal) (lc : String) (t : String) : Except String String := do
  let mem ← pyIn lc cfg
  if mem then do
    let lang_info ← pyGet cfg lc
    let nm ← pyGet lang_info "name" >>= asStr
    let t := pyReplace t "{language_name}" nm
    let loc ← pyGet lang_info "locale" >>= asStr
    let t := pyReplace t "{locale_code}" loc
    let t := pyReplace t "{name}" nm
    let t := pyReplace t "{locale}" loc
    .ok t
  else .ok t

/-- The planet-fields inner loop of the `names` block (generator.py lines
82-91): every record field except `names` is substituted for its
`{planet_<field>}` placeholder. -/
def planetFold (flds : PyDict) (t : String) : String :=
  match flds with
  | [] => t
  | (k, v) :: rest =>
      if k = "names" then planetFold rest t
      else planetFold rest (pyReplace t ("\x7bplanet_" ++ k ++ "\x7d") (valueText v))

/-- The `names` block of `fill_template_placeholders` (generator.py lines
76-91), entered when the record has a `names` field and a truthy language
code was supplied. -/
def namesSection (data_item : PyVal) (language_code : Option String) (t : String) :
    Except String String := do
  let hasNames ← pyIn "names" data_item
  if hasNames && optStrTruthy language_code then do
    let lc := language_code.getD ""
    let planet_names ← pyGet data_item "names"
    let mem ← pyIn lc planet_names
    let t ←
      if mem then do
        let pn ← pyGet planet_names lc >>= asStr
        .ok (pyReplace t "{planet_name_localized}" pn)
      else .ok t
    let flds ← asDict data_item
    .ok (planetFold flds t)
  else .ok t

/-- The final placeholder loop of `fill_template_placeholders` (generator.py
lines 94-101): every record field is substituted for its `{<field>}`
placeholder, in record order. -/
def fillFold (flds : PyDict) (t : String) : String :=
  match flds with
  | [] => t
  | (k, v) :: rest => fillFold rest (pyReplace t ("\x7b" ++ k ++ "\x7d") (valueText v))

/-- The string computed by `UniversalGenerator.fill_template_placeholders`
(generator.py lines 60-103).  The languages registry is re-read from the
filesystem on every call with a truthy language code, exactly as in the
source (line 66). -/
def fill_template_value (S : Settings) (loads : String → Option PyVal) (fs : Files)
    (template : String) (data_item : PyVal) (language_code : Option String) :
    Except String String := do
  let t₁ ←
    if optStrTruthy language_code then do
      let cfg ← load_languages S loads fs
      langSection cfg (language_code.getD "") template
    else .ok template
  let t₂ ← namesSection data_item language_code t₁
  let t₃ ← asDict data_item
  .ok (fillFold t₃ t₂)

/-- `fill_template_placeholders` with its effects on the world made
observable: the function only reads the languages registry, so it returns
the filesystem unchanged and an empty event trace. -/
def fill_template_placeholders (S : Settings) (loads : String → Option PyVal) (fs : Files)
    (template : String) (data_item : PyVal) (language_code : Option String) :
    Except String (String × Files × List Ev) :=
  (fill_template_value S loads fs template data_item language_code).map
    (fun s => (s, fs, []))

/-!  ## generator.py: the generation driver  -/

/-- `UniversalGenerator.load_prompt_template` (generator.py lines 23-29). -/
def load_prompt_template (fs : Files) (template_path : String) : Except String String :=
  match readFile fs template_path with
  | none => .error ("Prompt template not found: " ++ template_path)
  | some s => .ok (pyStrip s)

/-- `UniversalGenerator.load_data_config` (generator.py lines 31-58): a JSON
array is taken as is; in a JSON object the `planets` key, then the `data`
key, then the first list-valued entry is selected.  Selecting a non-list
value under `planets`/`data` is modelled as an error (iterating such a value
fails in the drivers). -/
def load_data_config (loads : String → Option PyVal) (fs : Files) (data_path : String) :
    Except String (List PyVal) :=
  match readFile fs data_path with
  | none => .error ("Data config file not found: " ++ data_path)
  | some txt =>
      match loads txt with
      | none => .error ("Invalid JSON in data config: " ++ data_path)
      | some (.vlist xs) => .ok xs
      | some (.vdict flds) =>
          match dictLookup flds "planets" with
          | some (.vlist xs) => .ok xs
          | some _ => .error "TypeError: selected data is not a list"
          | none =>
              match dictLookup flds "data" with
              | some (.vlist xs) => .ok xs
              | some _ => .error "TypeError: selected data is not a list"
              | none =>
                  match flds.find? (fun kv => match kv.2 with | .vlist _ => true | _ => false) with
                  | some (_, .vlist xs) => .ok xs
                  | _ => .error ("Unsupported data structure in " ++ data_path)
      | some _ => .error ("Unsupported data structure in " ++ data_path)

/-- `UniversalGenerator.get_output_filename` (generator.py lines 105-111). -/
def get_output_filename (language_code base_filename : String) : String :=
  let base :=
    if strEndsWith base_filename ".json" then
      strDropRight base_filename 5
    else base_filename
  language_code ++ "_" ++ base ++ ".json"

/-- `UniversalGenerator.check_file_exists` (generator.py lines 113-115). -/
def check_file_exists (fs : Files) (filepath : String) : Bool :=
  fileExists fs filepath

/-- The identifying key of record `i`: `data_item.get('key', f'item_{i}')`
(generator.py line 177). -/
def recordKey (data_item : PyVal) (i : Nat) : Except String PyVal :=
  pyGetD data_item "key" (.vstr ("item_" ++ toString i))

/-- The prompt sent for one record (generator.py lines 181-185): the filled
template with the language instruction prepended. -/
def buildPrompt (S : Settings) (loads : String → Option PyVal) (fs : Files)
    (prompt_template : String) (language_code : String) (data_item : PyVal) :
    Except String String := do
  let filled ← fill_template_value S loads fs prompt_template data_item (some language_code)
  let instr ← get_language_description S loads fs (some language_code)
  .ok (instr ++ "\n\n" ++ filled)

/-- The debug-mode stub response (generator.py line 197). -/
def debugStub (key : PyVal) (language_code : String) : String :=
  "\x7b\"debug\": true, \"key\": \"" ++ pyStr key ++ "\", \"language\": \"" ++
    language_code ++ "\", \"prompt_shown\": true\x7d"

/-- The per-record loop of `generate_data` for one language (generator.py
lines 176-226).  `oracle i p` is the LLM's answer to the `i`-th request of
the batch, whose prompt is `p`: `.ok` is a 200 response body, `.error` the
message of the exception the client raised.  In normal mode a request event
is recorded for every attempt; the pacing suspension (lines 217-219) sits
inside the `try` block after the result is appended, so it runs only when
the request succeeded.  Errors of template filling or of the language
instruction lookup (lines 181-185, outside the `try`) abort the batch. -/
def process_language_items (S : Settings) (loads : String → Option PyVal)
    (oracle : Nat → String → Except String String) (fs : Files)
    (prompt_template language_code : String) :
    Nat → List PyVal → Except String (List PyDict × List Ev)
  | _, [] => .ok ([], [])
  | i, item :: rest => do
      let key ← recordKey item i
      let p ← buildPrompt S loads fs prompt_template language_code item
      if S.debug_mode then do
        let response := debugStub key language_code
        let entry : PyDict := [("key", key), ("content", .vstr (pyStrip response))]
        let (res, tr) ← process_language_items S loads oracle fs prompt_template language_code (i + 1) rest
        .ok (entry :: res, tr)
      else
        match oracle i p with
        | .ok response => do
            let entry : PyDict := [("key", key), ("content", .vstr (pyStrip response))]
            let tr₀ :=
              if 0 < S.delay_between_requests then
                [Ev.req p, Ev.sleep S.delay_between_requests]
              else [Ev.req p]
            let (res, tr) ← process_language_items S loads oracle fs prompt_template language_code (i + 1) rest
            .ok (entry :: res, tr₀ ++ tr)
        | .error e => do
            let entry : PyDict := [("key", key), ("content", .vstr ("Error: " ++ e))]
            let (res, tr) ← process_language_items S loads oracle fs prompt_template language_code (i + 1) rest
            .ok (entry :: res, Ev.req p :: tr)

/-- The JSON value `UniversalGenerator.save_results` persists (generator.py
lines 239-253); the driver writes its `json.dump` text.  `now` is the
`get_current_timestamp` result, an input of the model. -/
def save_results (results : List PyDict) (language_code now : String) : PyVal :=
  .vdict [("generated_at", .vstr now),
          ("language", .vstr language_code),
          ("total_items", .vint results.length),
          ("data", .vlist (results.map .vdict))]

/-- `list(v.keys())` (`AttributeError` on a non-dict). -/
def pyKeys (v : PyVal) : Except String (List String) :=
  match v with
  | .vdict flds => .ok (flds.map (·.1))
  | _ => .error "AttributeError: keys"

/-- The per-language loop of `generate_data` (generator.py lines 147-236):
unknown languages are skipped without a result entry; languages whose output
file exists are recorded and skipped; otherwise the record batch runs and,
outside debug mode, the output file is written. -/
def genLangLoop (S : Settings) (loads : String → Option PyVal) (dumps : PyVal → String)
    (oracles : String → Nat → String → Except String String) (now : String)
    (prompt_template base_filename : String) (data_config : List PyVal)
    (languages_config : PyVal) :
    List String → List (String × String) → Files → List Ev →
    Except String (List (String × String) × Files × List Ev)
  | [], results, fs, tr => .ok (results, fs, tr)
  | lc :: rest, results, fs, tr => do
      let mem ← pyIn lc languages_config
      if mem = false then
        genLangLoop S loads dumps oracles now prompt_template base_filename data_config
          languages_config rest results fs tr
      else
        let output_path := S.output_dir ++ "/" ++ get_output_filename lc base_filename
        if check_file_exists fs output_path then
          genLangLoop S loads dumps oracles now prompt_template base_filename data_config
            languages_config rest (dictSetS results lc output_path) fs tr
        else do
          let (language_results, trB) ←
            process_language_items S loads (oracles lc) fs prompt_template lc 0 data_config
          if S.debug_mode then
            genLangLoop S loads dumps oracles now prompt_template base_filename data_config
              languages_config rest (dictSetS results lc output_path) fs (tr ++ trB)
          else
            genLangLoop S loads dumps oracles now prompt_template base_filename data_config
              languages_config rest (dictSetS results lc output_path)
              (writeFile fs output_path (dumps (save_results language_results lc now)))
              (tr ++ trB ++ [Ev.write output_path])

/-- `UniversalGenerator.generate_data` (generator.py lines 117-237).
`oracles lc i p` answers the `i`-th request of language `lc`; `dumps` is
`json.dump`; the result is the language → output-path mapping together with
the final filesystem and the event trace.  `os.path.join` is modelled as
joining with a slash. -/
def generate_data (S : Settings) (loads : String → Option PyVal) (dumps : PyVal → String)
    (oracles : String → Nat → String → Except String String) (now : String)
    (template_path base_filename data_path : String) (languages : Option (List String))
    (fs : Files) : Except String (List (String × String) × Files × List Ev) := do
  let prompt_template ← load_prompt_template fs template_path
  let data_config ← load_data_config loads fs data_path
  let languages_config ← load_languages S loads fs
  let langs ← match languages with
    | some ls => .ok ls
    | none => pyKeys languages_config
  genLangLoop S loads dumps oracles now prompt_template base_filename data_config
    languages_config langs [] fs []

/-!  ## translator.py  -/

/-- Python `for x in v`: lists yield elements, dicts yield their keys;
other shapes are not iterated anywhere relevant and are modelled as
`TypeError`. -/
def pyIterate (v : PyVal) : Except String (List PyVal) :=
  match v with
  | .vlist xs => .ok xs
  | .vdict flds => .ok (flds.map (fun kv => .vstr kv.1))
  | _ => .error "TypeError: not iterable"

/-- `DataTranslator.load_support_languages` (translator.py lines 23-29);
parse failure is an uncaught `JSONDecodeError`. -/
def load_support_languages (loads : String → Option PyVal) (fs : Files) :
    Except String PyVal :=
  match readFile fs "config/support_languages.json" with
  | none => .error "config/support_languages.json not found"
  | some txt =>
      match loads txt with
      | none => .error "JSONDecodeError"
      | some v => .ok v

/-- `DataTranslator.load_translation_prompt` (translator.py lines 31-37). -/
def load_translation_prompt (fs : Files) : Except String String :=
  match readFile fs "config/translation_prompt.txt" with
  | none => .error "config/translation_prompt.txt not found"
  | some s => .ok (pyStrip s)

/-- One record of the source-file validation loop (translator.py lines
47-61): `none` means the record is valid, `some (key, reason)` is the entry
appended to `invalid_items`; `.error` is an exception the loop does not
catch (only `JSONDecodeError` is caught).  The Python text of a JSON decode
error is not modelled beyond its `"Invalid JSON"` prefix. -/
def checkItem (loads : String → Option PyVal) (item : PyVal) :
    Except String (Option (PyVal × String)) := do
  let hasContent ← pyIn "content" item
  if hasContent = false then do
    let k ← pyGetD item "key" (.vstr "unknown")
    .ok (some (k, "Missing \x27content\x27 field"))
  else do
    let cv ← pyGet item "content"
    match cv with
    | .vstr cs =>
        match loads cs with
        | none => do
            let k ← pyGetD item "key" (.vstr "unknown")
            .ok (some (k, "Invalid JSON"))
        | some content => do
            let m1 ← pyIn "title" content
            let m2 ← pyIn "one_liner" content
            let m3 ← pyIn "body_md" content
            let missing :=
              (if m1 then [] else ["title"]) ++
              (if m2 then [] else ["one_liner"]) ++
              (if m3 then [] else ["body_md"])
            if missing.isEmpty then .ok none
            else do
              let k ← pyGetD item "key" (.vstr "unknown")
              .ok (some (k, "Missing fields: " ++ pyStr (.vlist (missing.map .vstr))))
    | _ => .error "TypeError: the JSON object must be str"

/-- The validation loop over all records (translator.py lines 46-61),
collecting `invalid_items` in record order. -/
def collectInvalid (loads : String → Option PyVal) : List PyVal →
    Except String (List (PyVal × String))
  | [] => .ok []
  | item :: rest => do
      let r ← checkItem loads item
      let others ← collectInvalid loads rest
      match r with
      | some p => .ok (p :: others)
      | none => .ok others

/-- The abort value of `validate_source_file`: either an exception the
validator did not raise itself (`pyerr`), the missing-`data` `ValueError`,
or the itemized `ValueError` carrying `invalid_items` (which the source
writes to the error log line by line before raising). -/
inductive SrcErr where
  | pyerr (msg : String)
  | missingData
  | invalidItems (items : List (PyVal × String))

/-- `str(e)` of the exception `validate_source_file` lets escape
(translator.py lines 42 and 67): the itemized case reports only the count. -/
def srcErrMsg : SrcErr → String
  | .pyerr m => m
  | .missingData => "Source file missing \x27data\x27 field"
  | .invalidItems its => "Source file has " ++ toString its.length ++ " invalid items"

/-- `DataTranslator.validate_source_file` (translator.py lines 39-70). -/
def validate_source_file (loads : String → Option PyVal) (source_data : PyVal) :
    Except SrcErr Unit :=
  match pyIn "data" source_data with
  | .error m => .error (.pyerr m)
  | .ok false => .error .missingData
  | .ok true =>
      match pyGet source_data "data" with
      | .error m => .error (.pyerr m)
      | .ok dv =>
          match pyIterate dv with
          | .error m => .error (.pyerr m)
          | .ok items =>
              match collectInvalid loads items with
              | .error m => .error (.pyerr m)
              | .ok [] => .ok ()
              | .ok its => .error (.invalidItems its)

/-- `DataTranslator.load_source_file` (translator.py lines 96-108): read
`data/<filename>`, parse it, validate it. -/
def load_source_file (loads : String → Option PyVal) (fs : Files) (filename : String) :
    Except SrcErr PyVal :=
  match readFile fs ("data/" ++ filename) with
  | none => .error (.pyerr ("Source file data/" ++ filename ++ " not found"))
  | some txt =>
      match loads txt with
      | none => .error (.pyerr "JSONDecodeError")
      | some source_data =>
          match validate_source_file loads source_data with
          | .error e => .error e
          | .ok _ => .ok source_data

/-- `DataTranslator.validate_translated_content` (translator.py lines
72-94): `false` on unparsable JSON, a missing required field, or a required
field that strips to empty; `.error` is the `AttributeError` raised by
`.strip()` on a non-string field, which the function does not catch. -/
def validate_translated_content (loads : String → Option PyVal)
    (translated_content : String) (_item_key : String) : Except String Bool :=
  match loads translated_content with
  | none => .ok false
  | some content => do
      let m1 ← pyIn "title" content
      let m2 ← pyIn "one_liner" content
      let m3 ← pyIn "body_md" content
      if !(m1 && m2 && m3) then .ok false
      else do
        let t ← pyGet content "title" >>= asStr
        let o ← pyGet content "one_liner" >>= asStr
        let b ← pyGet content "body_md" >>= asStr
        .ok (!(pyStrip t = "" || pyStrip o = "" || pyStrip b = ""))

/-- `DataTranslator.get_target_filename` (translator.py lines 110-118). -/
def get_target_filename (source_filename target_locale : String) : String :=
  let base :=
    if strStartsWith source_filename "eng_" then strDrop source_filename 4
    else source_filename
  target_locale ++ "_" ++ base

/-- `DataTranslator.file_exists` (translator.py lines 120-123). -/
def file_exists (fs : Files) (filename : String) : Bool :=
  fileExists fs ("data/" ++ filename)

/-- `DataTranslator.fill_translation_prompt` (translator.py lines 125-127). -/
def fill_translation_prompt (template content target_lang_name : String) : String :=
  pyReplace (pyReplace template "{content}" content) "{target_lang_name}" target_lang_name

/-- `DataTranslator.translate_content` (translator.py lines 129-151).
`oracle` answers one chat-completion request by prompt; the event list
records the request even when it failed.  Debug mode answers locally and
performs no request. -/
def translate_content (S : Settings) (oracle : String → Except String String) (fs : Files)
    (content target_lang_name : String) : List Ev × Except String String :=
  match load_translation_prompt fs with
  | .error e => ([], .error e)
  | .ok template =>
      let prompt := fill_translation_prompt template content target_lang_name
      if S.debug_mode then ([], .ok ("[DEBUG] Translated to " ++ target_lang_name))
      else
        match oracle prompt with
        | .ok response => ([Ev.req prompt], .ok (pyStrip response))
        | .error e => ([Ev.req prompt], .error e)

/-- The pacing suspension of the translator (translator.py lines 183-185),
performed after a translated record was validated (or fell back), in normal
mode with a positive delay. -/
def sleepTrace (S : Settings) : List Ev :=
  if !S.debug_mode && 0 < S.delay_between_requests then [Ev.sleep S.delay_between_requests]
  else []

/-- `DataTranslator.translate_data_item` (translator.py lines 153-190).
`dumps2`/`dumps0` are `json.dumps` with and without `indent=2`.  A record
without a `content` field, or whose content does not parse, passes through
unchanged; a rejected translation falls back to the original content; an
exception of the request or of `validate_translated_content` propagates. -/
def translate_data_item (S : Settings) (loads : String → Option PyVal)
    (dumps2 dumps0 : PyVal → String) (oracle : String → Except String String) (fs : Files)
    (item : PyDict) (target_lang_name : String) : List Ev × Except String PyDict :=
  let translated_item := item
  match dictLookup item "content" with
  | none => ([], .ok translated_item)
  | some cv =>
      match cv with
      | .vstr s =>
          match loads s with
          | none => ([], .ok translated_item)
          | some content_json =>
              let content_str := dumps2 content_json
              match translate_content S oracle fs content_str target_lang_name with
              | (tr, .error e) => (tr, .error e)
              | (tr, .ok translated_content_str) =>
                  match validate_translated_content loads translated_content_str
                      (pyStr (dictGetD item "key" (.vstr "unknown"))) with
                  | .error e => (tr, .error e)
                  | .ok false =>
                      (tr ++ sleepTrace S, .ok (dictSet translated_item "content" (.vstr s)))
                  | .ok true =>
                      match loads translated_content_str with
                      | some tj =>
                          (tr ++ sleepTrace S,
                           .ok (dictSet translated_item "content" (.vstr (dumps0 tj))))
                      | none =>
                          (tr ++ sleepTrace S, .ok (dictSet translated_item "content" (.vstr s)))
      | _ => ([], .error "TypeError: the JSON object must be str")

/-- `DataTranslator.save_translated_file` (translator.py lines 192-210):
refresh the metadata, then write `data/<target_filename>` unless in debug
mode. -/
def save_translated_file (S : Settings) (dumps2 : PyVal → String) (fs : Files)
    (translated_data : PyDict) (target_filename target_locale : String) : Files × List Ev :=
  let td := dictSet translated_data "language" (.vstr target_locale)
  let td := dictSet td "generated_at" (dictGetD td "generated_at" (.vstr ""))
  if S.debug_mode then (fs, [])
  else
    let path := "data/" ++ target_filename
    (writeFile fs path (dumps2 (.vdict td)), [Ev.write path])

/-- The record loop of one locale (translator.py lines 245-247). -/
def translateItemsLoop (S : Settings) (loads : String → Option PyVal)
    (dumps2 dumps0 : PyVal → String) (oracle : String → Except String String) (fs : Files)
    (target_lang_name : String) : List PyVal → List Ev × Except String (List PyDict)
  | [] => ([], .ok [])
  | item :: rest =>
      match asDict item with
      | .error e => ([], .error e)
      | .ok d =>
          match translate_data_item S loads dumps2 dumps0 oracle fs d target_lang_name with
          | (tr, .error e) => (tr, .error e)
          | (tr, .ok ti) =>
              match translateItemsLoop S loads dumps2 dumps0 oracle fs target_lang_name rest with
              | (tr₂, .error e) => (tr ++ tr₂, .error e)
              | (tr₂, .ok tis) => (tr ++ tr₂, .ok (ti :: tis))

/-- The translated data structure built for one locale (translator.py lines
237-247): source metadata is carried over (`total_items` in particular) and
`data` holds one translated (or passed-through) record per source record. -/
def translateLocaleData (S : Settings) (loads : String → Option PyVal)
    (dumps2 dumps0 : PyVal → String) (oracle : String → Except String String) (fs : Files)
    (source_data : PyVal) (locale target_lang_name : String) :
    List Ev × Except String PyDict :=
  match (do
      let g ← pyGetD source_data "generated_at" (.vstr "")
      let t ← pyGetD source_data "total_items" (.vint 0)
      let dv ← pyGetD source_data "data" (.vlist [])
      let items ← pyIterate dv
      pure (g, t, items) : Except String (PyVal × PyVal × List PyVal)) with
  | .error e => ([], .error e)
  | .ok (g, t, items) =>
      match translateItemsLoop S loads dumps2 dumps0 oracle fs target_lang_name items with
      | (tr, .error e) => (tr, .error e)
      | (tr, .ok tis) =>
          (tr, .ok [("generated_at", g), ("language", .vstr locale),
                    ("total_items", t), ("data", .vlist (tis.map .vdict))])

/-- The per-locale loop of `translate_file` (translator.py lines 226-250).
Outside debug mode a locale whose target file already exists is skipped
outright.  The `name` entry of the locale registry is forced to a string at
loop entry; a non-string name would make the prompt substitution raise
`TypeError` before any request for that locale, which this models. -/
def translateLangLoop (S : Settings) (loads : String → Option PyVal)
    (dumps2 dumps0 : PyVal → String) (oracle : String → Except String String)
    (source_filename : String) (source_data : PyVal) :
    List (String × PyVal) → Files → List Ev × Except String Files
  | [], fs => ([], .ok fs)
  | (locale, lang_config) :: rest, fs =>
      let target_filename := get_target_filename source_filename locale
      if !S.debug_mode && file_exists fs target_filename then
        translateLangLoop S loads dumps2 dumps0 oracle source_filename source_data rest fs
      else
        match pyGet lang_config "name" >>= asStr with
        | .error e => ([], .error e)
        | .ok name =>
            match translateLocaleData S loads dumps2 dumps0 oracle fs source_data locale name with
            | (tr, .error e) => (tr, .error e)
            | (tr, .ok td) =>
                let (fs', trW) := save_translated_file S dumps2 fs td target_filename locale
                match translateLangLoop S loads dumps2 dumps0 oracle source_filename
                    source_data rest fs' with
                | (tr₂, r) => (tr ++ trW ++ tr₂, r)

/-- `DataTranslator.translate_file` (translator.py lines 212-252): load the
locale registry, load and validate the source file, then translate per
locale.  The event list is reported even when the run aborts, so "no request
was issued" is a statement about the trace. -/
def translate_file (S : Settings) (loads : String → Option PyVal)
    (dumps2 dumps0 : PyVal → String) (oracle : String → Except String String) (fs : Files)
    (source_filename : String) : List Ev × Except SrcErr Files :=
  match load_support_languages loads fs with
  | .error e => ([], .error (.pyerr e))
  | .ok support_languages =>
      match load_source_file loads fs source_filename with
      | .error e => ([], .error e)
      | .ok source_data =>
          match asDict support_languages with
          | .error e => ([], .error (.pyerr e))
          | .ok langs =>
              match translateLangLoop S loads dumps2 dumps0 oracle source_filename
                  source_data langs fs with
              | (tr, .ok fs') => (tr, .ok fs')
              | (tr, .error e) => (tr, .error (.pyerr e))

/-!  ## Shared example inputs for concrete evaluations

The `json` collaborator is instantiated with a finite decoding table: each
raw file text used in the examples stands for one parsed value. -/

/-- Example decoder for the concrete worlds below. -/
def exLoads : String → Option PyVal := fun s =>
  if s = "LANGS" then
    some (.vdict [("eng", .vdict [("name", .vstr "English"), ("locale", .vstr "en-US")])])
  else if s = "SUPP" then
    some (.vdict [("spa", .vdict [("name", .vstr "Spanish")])])
  else if s = "BADSRC" then
    some (.vdict [("generated_at", .vstr "t0"), ("language", .vstr "eng"),
                  ("total_items", .vint 1),
                  ("data", .vlist [.vdict [("key", .vstr "aries")]])])
  else if s = "GOODCONTENT" then
    some (.vdict [("title", .vstr "T"), ("one_liner", .vstr "O"), ("body_md", .vstr "B")])
  else if s = "SKEWSRC" then
    some (.vdict [("generated_at", .vstr "t0"), ("language", .vstr "eng"),
                  ("total_items", .vint 5),
                  ("data", .vlist [.vdict [("key", .vstr "aries"),
                                           ("content", .vstr "GOODCONTENT")]])])
  else if s = "DATA1" then
    some (.vlist [.vdict [("key", .vstr "aries")]])
  else none

/-- Example serializer (no theorem depends on serialized text). -/
def exDumps : PyVal → String := fun _ => "SERIALIZED"

/-- Example settings: normal mode, one-second pacing delay. -/
def exSettings : Settings where
  openai_api_key := "k"
  openai_model := "gpt-4"
  openai_temperature := 7/10
  openai_max_tokens := 2000
  output_dir := "data"
  default_language := "eng"
  languages_config_path := "config/languages.json"
  zodiac_config_path := "config/zodiac.json"
  batch_size := 5
  delay_between_requests := 1
  debug_mode := false
  openai_translation_model := "m"
  openai_translation_max_tokens := 4000

/-- `exSettings` with debug mode switched on. -/
def exSettingsDebug : Settings :=
  { exSettings with debug_mode := true }

/-- Example filesystem for generator runs. -/
def exGenFiles : Files :=
  [("config/languages.json", "LANGS"),
   ("config/tmpl.txt", "T"),
   ("config/data.json", "DATA1")]

/-- Example filesystem for translator runs: locale registry, translation
prompt, and a source file whose `total_items` (5) disagrees with its one
data record. -/
def exTransFiles : Files :=
  [("config/support_languages.json", "SUPP"),
   ("config/translation_prompt.txt", "TP"),
   ("data/eng_z.json", "SKEWSRC")]

/-- Example LLM oracle for the translator: always answers `"RESP"`, which
`exLoads` does not decode. -/
def exOracle : String → Except String String := fun _ => .ok "RESP"

/-- Example filesystem for the translator whose source file has a record
with no `content` field. -/
def exBadFiles : Files :=
  [("config/support_languages.json", "SUPP"),
   ("config/translation_prompt.txt", "TP"),
   ("data/eng_bad.json", "BADSRC")]

/-- Example generation oracle that fails on every request. -/
def exFailOracle : Nat → String → Except String String := fun _ _ => .error "boom"

/-- Example per-language oracle family for full generator runs: every
request succeeds with padded text. -/
def exGenOracles : String → Nat → String → Except String String :=
  fun _ _ _ => .ok " R "

/-- Example generation oracle: the first request fails, later ones answer
with padded text. -/
def exMixOracle : Nat → String → Except String String :=
  fun i _ => if i = 0 then .error "boom" else .ok " R1 "

/-- The prompt sent for the example one-field records under `exGenFiles`:
the English instruction, a blank line, and the (unchanged) template. -/
def exPrompt : String :=
  "Generate content in English with clear, detailed astrological knowledge suitable for English-speaking audience.\n\nT"

/-!  ## Structured templates

To reason about which placeholders survive `fill_template_placeholders`, a
template is viewed as a sequence of segments: brace-free literal text and
`\x7bkey\x7d` placeholders.  These definitions describe templates; the
filler itself operates on the raw string. -/

/-- One template segment. -/
inductive Seg where
  | lit (s : List Char)
  | ph (k : List Char)

/-- The raw text of a segment. -/
def Seg.flat : Seg → List Char
  | .lit s => s
  | .ph k => '{' :: k ++ ['}']

/-- The raw text of a segment sequence. -/
def flatSegs (segs : List Seg) : List Char :=
  (segs.map Seg.flat).flatten

/-- Text without brace characters. -/
def braceFree (l : List Char) : Prop :=
  '{' ∉ l ∧ '}' ∉ l

instance (l : List Char) : Decidable (braceFree l) :=
  inferInstanceAs (Decidable (_ ∧ _))

/-- Well-formedness of a segment: literals and placeholder keys are
brace-free. -/
def SegOK : Seg → Prop
  | .lit s => braceFree s
  | .ph k => braceFree k

instance (seg : Seg) : Decidable (SegOK seg) := by
  cases seg <;> simp only [SegOK] <;> infer_instance

/-- Substitution of one key by one replacement text in a segment. -/
def substSeg (k rep : List Char) : Seg → Seg
  | .lit s => .lit s
  | .ph k' => if k' = k then .lit rep else .ph k'

/-- Substitution of every field of a record in a segment (first binding
wins, as in the sequential fold of the filler). -/
def substAllSegs (flds : PyDict) : Seg → Seg
  | .lit s => .lit s
  | .ph k =>
      match dictLookup flds (String.mk k) with
      | some v => .lit (valueText v).data
      | none => .ph k

/-- A segment whose placeholder (if any) refers to a field present in the
record. -/
def phCovered (flds : PyDict) : Seg → Prop
  | .lit _ => True
  | .ph k => (dictLookup flds (String.mk k)).isSome = true

instance (flds : PyDict) (seg : Seg) : Decidable (phCovered flds seg) := by
  cases seg <;> simp only [phCovered] <;> infer_instance

/-- The event trace of one normal-mode record batch, given the prompts sent:
every record contributes its request, followed by a pacing suspension
exactly when the request succeeded and the configured delay is positive. -/
def batchTrace (S : Settings) (oracle : Nat → String → Except String String) :
    List String → Nat → List Ev
  | [], _ => []
  | p :: rest, i =>
      (match oracle i p with
       | .ok _ =>
           if 0 < S.delay_between_requests then [Ev.req p, Ev.sleep S.delay_between_requests]
           else [Ev.req p]
       | .error _ => [Ev.req p]) ++ batchTrace S oracle rest (i + 1)

/-!  ## Helper lemmas  -/

theorem dictLookup_dictSet_self (fs : PyDict) (k : String) (v : PyVal) :
    dictLookup (dictSet fs k v) k = some v := by
  induction fs with
  | nil => simp [dictSet, dictLookup]
  | cons hd tl ih =>
      obtain ⟨k', v'⟩ := hd
      by_cases h : k' = k <;> simp [dictSet, dictLookup, h, ih]

theorem dictLookup_dictSet_ne (fs : PyDict) (k k₀ : String) (v : PyVal) (h : k ≠ k₀) :
    dictLookup (dictSet fs k₀ v) k = dictLookup fs k := by
  induction fs with
  | nil => simp [dictSet, dictLookup, Ne.symm h]
  | cons hd tl ih =>
      obtain ⟨k', v'⟩ := hd
      by_cases hk : k' = k₀
      · subst hk
        simp [dictSet, dictLookup, Ne.symm h]
      · simp [dictSet, dictLookup, hk, ih]

theorem map_fst_dictSet (fs : PyDict) (k : String) (v w : PyVal)
    (h : dictLookup fs k = some w) :
    (dictSet fs k v).map Prod.fst = fs.map Prod.fst := by
  induction fs with
  | nil => simp [dictLookup] at h
  | cons hd tl ih =>
      obtain ⟨k', v'⟩ := hd
      by_cases hk : k' = k
      · simp [dictSet, hk]
      · simp [dictLookup, hk] at h
        simp [dictSet, hk, ih h]

theorem strContains_chain {hay mid needle : String}
    (h1 : strContains hay mid = true) (h2 : strContains mid needle = true) :
    strContains hay needle = true := by
  simp only [strContains, decide_eq_true_eq] at *
  exact h2.trans h1

/-!  ## C7: payload shaping by model family  -/

/-- C7: `make_request` builds its payload by model family: every model
identifier containing `"gpt-5-mini"` yields a payload with
`max_completion_tokens` and no `temperature` key at all, while every model
identifier containing neither `"gpt-4o"` nor `"gpt-5"` yields a payload with
`max_tokens` together with the temperature. -/
theorem make_request_payload_by_model_family :
    (∀ (model prompt : String) (t : ℚ) (mt : Nat),
        strContains model "gpt-5-mini" = true →
        payloadLookup (make_request_payload model prompt t mt) "max_completion_tokens" =
            some (.pnat mt) ∧
        payloadLookup (make_request_payload model prompt t mt) "temperature" = none) ∧
    (∀ (model prompt : String) (t : ℚ) (mt : Nat),
        strContains model "gpt-4o" = false → strContains model "gpt-5" = false →
        payloadLookup (make_request_payload model prompt t mt) "max_tokens" = some (.pnat mt) ∧
        payloadLookup (make_request_payload model prompt t mt) "temperature" = some (.pnum t)) := by
  constructor
  · intro model prompt t mt h5
    have h5g : strContains model "gpt-5" = true := strContains_chain h5 (by decide)
    simp [make_request_payload, payloadLookup, h5, h5g, List.filter]
  · intro model prompt t mt h4o h5
    simp [make_request_payload, payloadLookup, h4o, h5]

/-- Witness for C7 at the models `"gpt-5-mini"` and `"gpt-4"`. -/
theorem make_request_payload_by_model_family_witness :
    (payloadLookup (make_request_payload "gpt-5-mini" "p" 1 5) "max_completion_tokens" =
        some (.pnat 5) ∧
     payloadLookup (make_request_payload "gpt-5-mini" "p" 1 5) "temperature" = none) ∧
    (payloadLookup (make_request_payload "gpt-4" "p" 1 5) "max_tokens" = some (.pnat 5) ∧
     payloadLookup (make_request_payload "gpt-4" "p" 1 5) "temperature" = some (.pnum 1)) :=
  ⟨make_request_payload_by_model_family.1 "gpt-5-mini" "p" 1 5 (by decide),
   make_request_payload_by_model_family.2 "gpt-4" "p" 1 5 (by decide) (by decide)⟩

/-!  ## C1: purity of the template filler  -/

/-- C1: `fill_template_placeholders` is pure and deterministic: a successful
invocation leaves the filesystem unchanged and records no network or write
event, and a second invocation on the resulting world with the same
template, record and optional language code returns the same string. -/
theorem fill_template_placeholders_pure (S : Settings) (loads : String → Option PyVal)
    (fs : Files) (template : String) (data_item : PyVal) (language_code : Option String)
    (s : String) (fs' : Files) (ev : List Ev)
    (h : fill_template_placeholders S loads fs template data_item language_code =
        .ok (s, fs', ev)) :
    fs' = fs ∧ ev = [] ∧
      fill_template_placeholders S loads fs' template data_item language_code =
        .ok (s, fs', ev) := by
  unfold fill_template_placeholders at h ⊢
  cases hv : fill_template_value S loads fs template data_item language_code with
  | ok v =>
      rw [hv] at h
      simp only [Except.map, Except.ok.injEq, Prod.mk.injEq] at h
      obtain ⟨h1, h2, h3⟩ := h
      subst h2
      rw [hv]
      simp [Except.map, h1, h3]
  | error e =>
      rw [hv] at h
      simp [Except.map] at h

/-- Witness for C1: a successful concrete fill (no language code, empty
record) on the empty filesystem. -/
theorem fill_template_placeholders_pure_witness :
    ([] : Files) = [] ∧ ([] : List Ev) = [] ∧
      fill_template_placeholders exSettings exLoads [] "T" (.vdict []) none =
        .ok ("T", [], []) :=
  fill_template_placeholders_pure exSettings exLoads [] "T" (.vdict []) none "T" [] [] rfl

/-!  ## C10: frame property of translate_data_item  -/

/-- C10: for every input item, `translate_data_item` returns an item whose
fields other than `content` (including `key`) are exactly those of the
input, in the same order; only the `content` binding may differ. -/
theorem translate_data_item_frame (S : Settings) (loads : String → Option PyVal)
    (dumps2 dumps0 : PyVal → String) (oracle : String → Except String String) (fs : Files)
    (item : PyDict) (target : String) (tr : List Ev) (out : PyDict)
    (h : translate_data_item S loads dumps2 dumps0 oracle fs item target = (tr, .ok out)) :
    (∀ k, k ≠ "content" → dictLookup out k = dictLookup item k) ∧
    out.map Prod.fst = item.map Prod.fst := by
  cases hc : dictLookup item "content" with
  | none =>
      simp [translate_data_item, hc, Prod.ext_iff] at h
      simp [h.2]
  | some cv =>
      cases cv with
      | vstr s =>
          cases hl : loads s with
          | none =>
              simp [translate_data_item, hc, hl, Prod.ext_iff] at h
              simp [h.2]
          | some cj =>
              rcases ht : translate_content S oracle fs (dumps2 cj) target with ⟨tr₁, r₁⟩
              cases r₁ with
              | error e => simp [translate_data_item, hc, hl, ht, Prod.ext_iff] at h
              | ok tcs =>
                  cases hvv : validate_translated_content loads tcs
                      (pyStr (dictGetD item "key" (.vstr "unknown"))) with
                  | error e => simp [translate_data_item, hc, hl, ht, hvv, Prod.ext_iff] at h
                  | ok b =>
                      have hset : ∀ w : PyVal, out = dictSet item "content" w →
                          (∀ k, k ≠ "content" → dictLookup out k = dictLookup item k) ∧
                          out.map Prod.fst = item.map Prod.fst := by
                        intro w hw
                        subst hw
                        exact ⟨fun k hk => dictLookup_dictSet_ne item k "content" w hk,
                               map_fst_dictSet item "content" w _ hc⟩
                      cases b with
                      | false =>
                          simp [translate_data_item, hc, hl, ht, hvv, Prod.ext_iff] at h
                          exact hset _ h.2.symm
                      | true =>
                          cases hl2 : loads tcs with
                          | none =>
                              simp [translate_data_item, hc, hl, ht, hvv, hl2,
                                Prod.ext_iff] at h
                              exact hset _ h.2.symm
                          | some tj =>
                              simp [translate_data_item, hc, hl, ht, hvv, hl2,
                                Prod.ext_iff] at h
                              exact hset _ h.2.symm
      | vint n => simp [translate_data_item, hc, Prod.ext_iff] at h
      | vbool b => simp [translate_data_item, hc, Prod.ext_iff] at h
      | vnone => simp [translate_data_item, hc, Prod.ext_iff] at h
      | vlist xs => simp [translate_data_item, hc, Prod.ext_iff] at h
      | vdict gs => simp [translate_data_item, hc, Prod.ext_iff] at h

/-- Witness for C10 at a concrete translated item. -/
theorem translate_data_item_frame_witness :
    (∀ k, k ≠ "content" →
        dictLookup [("key", PyVal.vstr "aries"), ("content", PyVal.vstr "GOODCONTENT")] k =
          dictLookup [("key", PyVal.vstr "aries"), ("content", PyVal.vstr "GOODCONTENT")] k) ∧
    ([("key", PyVal.vstr "aries"), ("content", PyVal.vstr "GOODCONTENT")] :
        PyDict).map Prod.fst =
      ([("key", PyVal.vstr "aries"), ("content", PyVal.vstr "GOODCONTENT")] :
        PyDict).map Prod.fst :=
  translate_data_item_frame exSettings exLoads exDumps exDumps exOracle exTransFiles
    [("key", .vstr "aries"), ("content", .vstr "GOODCONTENT")] "Spanish"
    [Ev.req "TP", Ev.sleep 1]
    [("key", .vstr "aries"), ("content", .vstr "GOODCONTENT")] rfl

/-!  ## C6: fallback to the original content on rejected translations  -/

/-- C6: whenever `validate_translated_content` rejects the translated
string, `translate_data_item` returns an item whose `content` field equals
the original source item's content string verbatim. -/
theorem translate_data_item_fallback (S : Settings) (loads : String → Option PyVal)
    (dumps2 dumps0 : PyVal → String) (oracle : String → Except String String) (fs : Files)
    (item : PyDict) (target s : String) (cj : PyVal) (tr : List Ev) (tcs : String)
    (hc : dictLookup item "content" = some (.vstr s))
    (hj : loads s = some cj)
    (ht : translate_content S oracle fs (dumps2 cj) target = (tr, .ok tcs))
    (hv : validate_translated_content loads tcs
        (pyStr (dictGetD item "key" (.vstr "unknown"))) = .ok false) :
    translate_data_item S loads dumps2 dumps0 oracle fs item target =
      (tr ++ sleepTrace S, .ok (dictSet item "content" (.vstr s))) ∧
    dictLookup (dictSet item "content" (.vstr s)) "content" = dictLookup item "content" := by
  constructor
  · simp [translate_data_item, hc, hj, ht, hv]
  · rw [dictLookup_dictSet_self, hc]

/-- Witness for C6 at a concrete rejected translation (the oracle's answer
does not decode as JSON). -/
theorem translate_data_item_fallback_witness :
    translate_data_item exSettings exLoads exDumps exDumps exOracle exTransFiles
        [("key", .vstr "aries"), ("content", .vstr "GOODCONTENT")] "Spanish" =
      ([Ev.req "TP"] ++ sleepTrace exSettings,
       .ok (dictSet [("key", .vstr "aries"), ("content", .vstr "GOODCONTENT")]
              "content" (.vstr "GOODCONTENT"))) ∧
    dictLookup (dictSet [("key", .vstr "aries"), ("content", .vstr "GOODCONTENT")]
        "content" (.vstr "GOODCONTENT")) "content" =
      dictLookup [("key", .vstr "aries"), ("content", .vstr "GOODCONTENT")] "content" :=
  translate_data_item_fallback exSettings exLoads exDumps exDumps exOracle exTransFiles
    [("key", .vstr "aries"), ("content", .vstr "GOODCONTENT")] "Spanish" "GOODCONTENT"
    (.vdict [("title", .vstr "T"), ("one_liner", .vstr "O"), ("body_md", .vstr "B")])
    [Ev.req "TP"] "RESP" rfl rfl rfl rfl

theorem readFile_writeFile_self (fs : Files) (p t : String) :
    readFile (writeFile fs p t) p = some t := by
  induction fs with
  | nil => simp [writeFile, readFile]
  | cons hd tl ih =>
      obtain ⟨q, s⟩ := hd
      by_cases h : q = p <;> simp [writeFile, readFile, h, ih]

theorem readFile_writeFile_ne (fs : Files) (p t q : String) (h : q ≠ p) :
    readFile (writeFile fs p t) q = readFile fs q := by
  induction fs with
  | nil => simp [writeFile, readFile, Ne.symm h]
  | cons hd tl ih =>
      obtain ⟨r, s⟩ := hd
      by_cases hr : r = p
      · subst hr
        simp [writeFile, readFile, Ne.symm h]
      · simp [writeFile, readFile, hr, ih]

theorem fileExists_writeFile_mono (fs : Files) (p t q : String)
    (h : fileExists fs q = true) : fileExists (writeFile fs p t) q = true := by
  by_cases hq : q = p
  · subst hq
    simp [fileExists, readFile_writeFile_self]
  · simpa [fileExists, readFile_writeFile_ne fs p t q hq] using h

theorem writtenPaths_append (a b : List Ev) :
    writtenPaths (a ++ b) = writtenPaths a ++ writtenPaths b := by
  induction a with
  | nil => simp [writtenPaths]
  | cons hd tl ih => cases hd <;> simp [writtenPaths, ih]

/-!  ## The normal-mode record batch: results and trace  -/

/-- Specification of `process_language_items` in normal mode: a successful
batch over `M` records yields exactly `M` results in source order — record
`j`'s content is the stripped response when its request succeeded and
`"Error: " ++ message` when it raised — and the event trace is
`batchTrace` over the prompts actually sent. -/
theorem process_language_items_spec (S : Settings) (loads : String → Option PyVal)
    (oracle : Nat → String → Except String String) (fs : Files)
    (tmpl lc : String) (hdbg : S.debug_mode = false) :
    ∀ (items : List PyVal) (i : Nat) (res : List PyDict) (tr : List Ev),
      process_language_items S loads oracle fs tmpl lc i items = .ok (res, tr) →
      ∃ prompts : List String,
        prompts.length = items.length ∧
        res.length = items.length ∧
        tr = batchTrace S oracle prompts i ∧
        ∀ j, j < items.length → ∃ item key p,
          items[j]? = some item ∧
          prompts[j]? = some p ∧
          recordKey item (i + j) = .ok key ∧
          buildPrompt S loads fs tmpl lc item = .ok p ∧
          res[j]? = some [("key", key),
            ("content", .vstr (match oracle (i + j) p with
              | .ok r => pyStrip r
              | .error e => "Error: " ++ e))] := by
  intro items
  induction items with
  | nil =>
      intro i res tr h
      simp [process_language_items, Prod.ext_iff] at h
      refine ⟨[], by simp, by simp [← h.1], by simp [← h.2, batchTrace], ?_⟩
      intro j hj
      simp at hj
  | cons item rest ih =>
      intro i res tr h
      cases hk : recordKey item i with
      | error e => simp [process_language_items, hk, bind, Except.bind] at h
      | ok key =>
          cases hp : buildPrompt S loads fs tmpl lc item with
          | error e => simp [process_language_items, hk, hp, bind, Except.bind] at h
          | ok p =>
              cases ho : oracle i p with
              | ok r =>
                  cases hrec : process_language_items S loads oracle fs tmpl lc (i + 1) rest with
                  | error e =>
                      simp [process_language_items, hk, hp, hdbg, ho, hrec,
                        bind, Except.bind] at h
                  | ok pr =>
                      obtain ⟨res', tr'⟩ := pr
                      simp [process_language_items, hk, hp, hdbg, ho, hrec,
                        bind, Except.bind, Prod.ext_iff] at h
                      obtain ⟨prompts', hlen, hreslen, htr, hj⟩ := ih (i + 1) res' tr' hrec
                      refine ⟨p :: prompts', by simp [hlen], ?_, ?_, ?_⟩
                      · rw [← h.1]; simp [hreslen]
                      · rw [← h.2, htr]; simp [batchTrace, ho]
                      · intro j hjlt
                        match j with
                        | 0 =>
                            refine ⟨item, key, p, by simp, by simp, by simpa using hk, hp, ?_⟩
                            rw [← h.1]
                            simp [ho]
                        | Nat.succ j' =>
                            have hj' : j' < rest.length := by
                              simpa [Nat.succ_lt_succ_iff] using hjlt
                            obtain ⟨it, k₂, p₂, h1, h2, h3, h4, h5⟩ := hj j' hj'
                            have hadd : i + 1 + j' = i + (j' + 1) := by omega
                            rw [hadd] at h3
                            refine ⟨it, k₂, p₂, by simpa using h1, by simpa using h2, h3, h4, ?_⟩
                            rw [← h.1]
                            simpa [hadd] using h5
              | error e =>
                  cases hrec : process_language_items S loads oracle fs tmpl lc (i + 1) rest with
                  | error e₂ =>
                      simp [process_language_items, hk, hp, hdbg, ho, hrec,
                        bind, Except.bind] at h
                  | ok pr =>
                      obtain ⟨res', tr'⟩ := pr
                      simp [process_language_items, hk, hp, hdbg, ho, hrec,
                        bind, Except.bind, Prod.ext_iff] at h
                      obtain ⟨prompts', hlen, hreslen, htr, hj⟩ := ih (i + 1) res' tr' hrec
                      refine ⟨p :: prompts', by simp [hlen], ?_, ?_, ?_⟩
                      · rw [← h.1]; simp [hreslen]
                      · rw [← h.2, htr]; simp [batchTrace, ho]
                      · intro j hjlt
                        match j with
                        | 0 =>
                            refine ⟨item, key, p, by simp, by simp, by simpa using hk, hp, ?_⟩
                            rw [← h.1]
                            simp [ho]
                        | Nat.succ j' =>
                            have hj' : j' < rest.length := by
                              simpa [Nat.succ_lt_succ_iff] using hjlt
                            obtain ⟨it, k₂, p₂, h1, h2, h3, h4, h5⟩ := hj j' hj'
                            have hadd : i + 1 + j' = i + (j' + 1) := by omega
                            rw [hadd] at h3
                            refine ⟨it, k₂, p₂, by simpa using h1, by simpa using h2, h3, h4, ?_⟩
                            rw [← h.1]
                            simpa [hadd] using h5

theorem batchTrace_writtenPaths (S : Settings) (oracle : Nat → String → Except String String) :
    ∀ (ps : List String) (i : Nat), writtenPaths (batchTrace S oracle ps i) = [] := by
  intro ps
  induction ps with
  | nil => intro i; simp [batchTrace, writtenPaths]
  | cons p rest ih =>
      intro i
      cases ho : oracle i p with
      | ok r =>
          by_cases hd : 0 < S.delay_between_requests <;>
            simp [batchTrace, ho, hd, writtenPaths_append, writtenPaths, ih]
      | error e => simp [batchTrace, ho, writtenPaths_append, writtenPaths, ih]

/-- A record batch never writes a file: its trace holds only request and
sleep events. -/
theorem process_language_items_no_writes (S : Settings) (loads : String → Option PyVal)
    (oracle : Nat → String → Except String String) (fs : Files) (tmpl lc : String)
    (hdbg : S.debug_mode = false) (items : List PyVal) (i : Nat) (res : List PyDict)
    (tr : List Ev)
    (h : process_language_items S loads oracle fs tmpl lc i items = .ok (res, tr)) :
    writtenPaths tr = [] := by
  obtain ⟨prompts, _, _, htr, _⟩ :=
    process_language_items_spec S loads oracle fs tmpl lc hdbg items i res tr h
  rw [htr]
  exact batchTrace_writtenPaths S oracle prompts i

/-- Resumption behaviour of the per-language loop: a successful normal-mode
pass only grows the filesystem at the freshly written paths, each written at
most once and absent beforehand, and re-running the same loop on the
resulting filesystem is a pure no-op returning the same results and writing
and requesting nothing. -/
theorem genLangLoop_resume (S : Settings) (loads : String → Option PyVal)
    (dumps : PyVal → String) (oracles : String → Nat → String → Except String String)
    (now tmpl bf : String) (dc : List PyVal) (cfg : PyVal)
    (hdbg : S.debug_mode = false) :
    ∀ (langs : List String) (results : List (String × String)) (fs₀ : Files)
      (tr₀ : List Ev) (res : List (String × String)) (fs₁ : Files) (tr₁ : List Ev),
      genLangLoop S loads dumps oracles now tmpl bf dc cfg langs results fs₀ tr₀ =
        .ok (res, fs₁, tr₁) →
      (∀ q, fileExists fs₀ q = true → fileExists fs₁ q = true) ∧
      (∀ tr₂, genLangLoop S loads dumps oracles now tmpl bf dc cfg langs results fs₁ tr₂ =
          .ok (res, fs₁, tr₂)) ∧
      ∃ Δ, tr₁ = tr₀ ++ Δ ∧
        (∀ q, q ∉ writtenPaths Δ → readFile fs₁ q = readFile fs₀ q) ∧
        (∀ p ∈ writtenPaths Δ, fileExists fs₀ p = false) ∧
        (writtenPaths Δ).Nodup := by
  intro langs
  induction langs with
  | nil =>
      intro results fs₀ tr₀ res fs₁ tr₁ h
      simp [genLangLoop, Prod.ext_iff] at h
      obtain ⟨h1, h2, h3⟩ := h
      subst h2
      refine ⟨fun q hq => hq, fun tr₂ => by simp [genLangLoop, h1], [], ?_, ?_, ?_, ?_⟩
      · simp [← h3]
      · intro q _; rfl
      · intro p hp; simp [writtenPaths] at hp
      · simp [writtenPaths]
  | cons lc rest ih =>
      intro results fs₀ tr₀ res fs₁ tr₁ h
      cases hmem : pyIn lc cfg with
      | error e => simp [genLangLoop, hmem, bind, Except.bind] at h
      | ok mem =>
          cases mem with
          | false =>
              have h' : genLangLoop S loads dumps oracles now tmpl bf dc cfg rest results
                  fs₀ tr₀ = .ok (res, fs₁, tr₁) := by
                simpa [genLangLoop, hmem, bind, Except.bind] using h
              obtain ⟨P1, P2, Δ, hΔ⟩ := ih results fs₀ tr₀ res fs₁ tr₁ h'
              exact ⟨P1, fun tr₂ => by simp [genLangLoop, hmem, bind, Except.bind, P2], Δ, hΔ⟩
          | true =>
              by_cases hex :
                  check_file_exists fs₀ (S.output_dir ++ "/" ++ get_output_filename lc bf) = true
              · have h' : genLangLoop S loads dumps oracles now tmpl bf dc cfg rest
                    (dictSetS results lc (S.output_dir ++ "/" ++ get_output_filename lc bf))
                    fs₀ tr₀ = .ok (res, fs₁, tr₁) := by
                  simpa [genLangLoop, hmem, hex, bind, Except.bind] using h
                obtain ⟨P1, P2, Δ, h1, h2, h3, h4⟩ := ih _ fs₀ tr₀ res fs₁ tr₁ h'
                refine ⟨P1, ?_, Δ, h1, h2, h3, h4⟩
                intro tr₂
                have hex1 : check_file_exists fs₁
                    (S.output_dir ++ "/" ++ get_output_filename lc bf) = true :=
                  P1 _ hex
                simp [genLangLoop, hmem, hex1, bind, Except.bind, P2]
              · cases hb : process_language_items S loads (oracles lc) fs₀ tmpl lc 0 dc with
                | error e =>
                    simp [genLangLoop, hmem, hex, hb, bind, Except.bind] at h
                | ok pr =>
                    obtain ⟨bres, trB⟩ := pr
                    have h' : genLangLoop S loads dumps oracles now tmpl bf dc cfg rest
                        (dictSetS results lc (S.output_dir ++ "/" ++ get_output_filename lc bf))
                        (writeFile fs₀ (S.output_dir ++ "/" ++ get_output_filename lc bf)
                          (dumps (save_results bres lc now)))
                        (tr₀ ++ trB ++ [Ev.write
                          (S.output_dir ++ "/" ++ get_output_filename lc bf)]) =
                        .ok (res, fs₁, tr₁) := by
                      simpa [genLangLoop, hmem, hex, hb, hdbg, bind, Except.bind] using h
                    obtain ⟨P1, P2, Δ, h1, h2, h3, h4⟩ := ih _ _ _ res fs₁ tr₁ h'
                    have hBw : writtenPaths trB = [] :=
                      process_language_items_no_writes S loads (oracles lc) fs₀ tmpl lc
                        hdbg dc 0 bres trB hb
                    have hΔeq : writtenPaths (trB ++ [Ev.write
                        (S.output_dir ++ "/" ++ get_output_filename lc bf)] ++ Δ) =
                        (S.output_dir ++ "/" ++ get_output_filename lc bf) :: writtenPaths Δ := by
                      simp [writtenPaths_append, hBw, writtenPaths]
                    have hexists₂ : fileExists
                        (writeFile fs₀ (S.output_dir ++ "/" ++ get_output_filename lc bf)
                          (dumps (save_results bres lc now)))
                        (S.output_dir ++ "/" ++ get_output_filename lc bf) = true := by
                      simp [fileExists, readFile_writeFile_self]
                    refine ⟨?_, ?_, trB ++ [Ev.write
                        (S.output_dir ++ "/" ++ get_output_filename lc bf)] ++ Δ, ?_, ?_, ?_, ?_⟩
                    · intro q hq
                      exact P1 q (fileExists_writeFile_mono fs₀ _ _ q hq)
                    · intro tr₂
                      have hex1 : check_file_exists fs₁
                          (S.output_dir ++ "/" ++ get_output_filename lc bf) = true :=
                        P1 _ hexists₂
                      simp [genLangLoop, hmem, hex1, bind, Except.bind, P2]
                    · rw [h1]
                      simp [List.append_assoc]
                    · intro q hq
                      rw [hΔeq] at hq
                      simp at hq
                      rw [h2 q hq.2, readFile_writeFile_ne fs₀ _ _ q hq.1]
                    · intro p hp
                      rw [hΔeq] at hp
                      rcases List.mem_cons.mp hp with hpP | hp'
                      · subst hpP
                        simpa [check_file_exists] using hex
                      · by_contra hc
                        have hc' : fileExists fs₀ p = true := by
                          cases hfe : fileExists fs₀ p
                          · exact absurd hfe hc
                          · rfl
                        have : fileExists
                            (writeFile fs₀ (S.output_dir ++ "/" ++ get_output_filename lc bf)
                              (dumps (save_results bres lc now))) p = true :=
                          fileExists_writeFile_mono fs₀ _ _ p hc'
                        rw [h3 p hp'] at this
                        exact Bool.false_ne_true this
                    · rw [hΔeq]
                      refine List.Nodup.cons ?_ h4
                      intro hmem'
                      have := h3 _ hmem'
                      rw [hexists₂] at this
                      simp at this

theorem load_prompt_template_congr (fs₁ fs₂ : Files) (p : String)
    (h : readFile fs₂ p = readFile fs₁ p) :
    load_prompt_template fs₂ p = load_prompt_template fs₁ p := by
  unfold load_prompt_template
  rw [h]

theorem load_data_config_congr (loads : String → Option PyVal) (fs₁ fs₂ : Files) (p : String)
    (h : readFile fs₂ p = readFile fs₁ p) :
    load_data_config loads fs₂ p = load_data_config loads fs₁ p := by
  unfold load_data_config
  rw [h]

theorem load_languages_congr (S : Settings) (loads : String → Option PyVal) (fs₁ fs₂ : Files)
    (h : readFile fs₂ S.languages_config_path = readFile fs₁ S.languages_config_path) :
    load_languages S loads fs₂ = load_languages S loads fs₁ := by
  unfold load_languages
  rw [h]

/-!  ## C4: idempotent resumption  -/

/-- C4: (i) after a successful normal-mode `generate_data` run whose writes
did not touch the input files, running it again with identical arguments
succeeds with the same language-to-path mapping, an unchanged filesystem and
an empty event trace — zero LLM requests and zero writes; (ii) a run only
writes paths that did not exist before, each at most once, so an existing
output file is never overwritten; (iii) `translate_file`'s locale loop skips
a locale whose target file already exists outright, leaving the state
untouched. -/
theorem generate_data_idempotent_resumption :
    (∀ (S : Settings) (loads : String → Option PyVal) (dumps : PyVal → String)
        (oracles : String → Nat → String → Except String String) (now tp bf dp : String)
        (languages : Option (List String)) (fs : Files) (res : List (String × String))
        (fs' : Files) (tr : List Ev),
        S.debug_mode = false →
        generate_data S loads dumps oracles now tp bf dp languages fs = .ok (res, fs', tr) →
        tp ∉ writtenPaths tr → dp ∉ writtenPaths tr →
        S.languages_config_path ∉ writtenPaths tr →
        generate_data S loads dumps oracles now tp bf dp languages fs' =
          .ok (res, fs', [])) ∧
    (∀ (S : Settings) (loads : String → Option PyVal) (dumps : PyVal → String)
        (oracles : String → Nat → String → Except String String) (now tp bf dp : String)
        (languages : Option (List String)) (fs : Files) (res : List (String × String))
        (fs' : Files) (tr : List Ev),
        S.debug_mode = false →
        generate_data S loads dumps oracles now tp bf dp languages fs = .ok (res, fs', tr) →
        (∀ p ∈ writtenPaths tr, fileExists fs p = false) ∧ (writtenPaths tr).Nodup) ∧
    (∀ (S : Settings) (loads : String → Option PyVal) (dumps2 dumps0 : PyVal → String)
        (oracle : String → Except String String) (sfn : String) (src : PyVal)
        (locale : String) (lcfg : PyVal) (rest : List (String × PyVal)) (fs : Files),
        S.debug_mode = false →
        file_exists fs (get_target_filename sfn locale) = true →
        translateLangLoop S loads dumps2 dumps0 oracle sfn src ((locale, lcfg) :: rest) fs =
          translateLangLoop S loads dumps2 dumps0 oracle sfn src rest fs) := by
  have main : ∀ (S : Settings) (loads : String → Option PyVal) (dumps : PyVal → String)
      (oracles : String → Nat → String → Except String String) (now tp bf dp : String)
      (languages : Option (List String)) (fs : Files) (res : List (String × String))
      (fs' : Files) (tr : List Ev),
      S.debug_mode = false →
      generate_data S loads dumps oracles now tp bf dp languages fs = .ok (res, fs', tr) →
      (tp ∉ writtenPaths tr → dp ∉ writtenPaths tr →
        S.languages_config_path ∉ writtenPaths tr →
        generate_data S loads dumps oracles now tp bf dp languages fs' =
          .ok (res, fs', [])) ∧
      (∀ p ∈ writtenPaths tr, fileExists fs p = false) ∧ (writtenPaths tr).Nodup := by
    intro S loads dumps oracles now tp bf dp languages fs res fs' tr hdbg h
    cases h1 : load_prompt_template fs tp with
    | error e => simp [generate_data, h1, bind, Except.bind] at h
    | ok tmpl =>
    cases h2 : load_data_config loads fs dp with
    | error e => simp [generate_data, h1, h2, bind, Except.bind] at h
    | ok dc =>
    cases h3 : load_languages S loads fs with
    | error e => simp [generate_data, h1, h2, h3, bind, Except.bind] at h
    | ok cfg =>
    have hlangs : ∃ langs : List String,
        (match languages with
          | some ls => (.ok ls : Except String (List String))
          | none => pyKeys cfg) = .ok langs ∧
        genLangLoop S loads dumps oracles now tmpl bf dc cfg langs [] fs [] =
          .ok (res, fs', tr) := by
      cases languages with
      | some ls =>
          refine ⟨ls, rfl, ?_⟩
          simpa [generate_data, h1, h2, h3, bind, Except.bind] using h
      | none =>
          cases h4 : pyKeys cfg with
          | error e => simp [generate_data, h1, h2, h3, h4, bind, Except.bind] at h
          | ok ks =>
              refine ⟨ks, rfl, ?_⟩
              simpa [generate_data, h1, h2, h3, h4, bind, Except.bind] using h
    obtain ⟨langs, hsel, hloop⟩ := hlangs
    obtain ⟨P1, P2, Δ, hΔ1, hΔ2, hΔ3, hΔ4⟩ :=
      genLangLoop_resume S loads dumps oracles now tmpl bf dc cfg hdbg langs [] fs []
        res fs' tr hloop
    have hΔtr : Δ = tr := by simpa using hΔ1.symm
    subst hΔtr
    refine ⟨?_, hΔ3, hΔ4⟩
    intro htp hdp hlp
    have r1 : load_prompt_template fs' tp = .ok tmpl := by
      rw [load_prompt_template_congr fs fs' tp (hΔ2 tp htp)]
      exact h1
    have r2 : load_data_config loads fs' dp = .ok dc := by
      rw [load_data_config_congr loads fs fs' dp (hΔ2 dp hdp)]
      exact h2
    have r3 : load_languages S loads fs' = .ok cfg := by
      rw [load_languages_congr S loads fs fs' (hΔ2 _ hlp)]
      exact h3
    cases languages with
    | some ls =>
        have hls : ls = langs := by simpa using hsel
        subst hls
        simp [generate_data, r1, r2, r3, bind, Except.bind, P2 []]
    | none =>
        have hks : pyKeys cfg = .ok langs := by simpa using hsel
        simp [generate_data, r1, r2, r3, hks, bind, Except.bind, P2 []]
  refine ⟨?_, ?_, ?_⟩
  · intro S loads dumps oracles now tp bf dp languages fs res fs' tr hdbg h htp hdp hlp
    exact (main S loads dumps oracles now tp bf dp languages fs res fs' tr hdbg h).1
      htp hdp hlp
  · intro S loads dumps oracles now tp bf dp languages fs res fs' tr hdbg h
    exact (main S loads dumps oracles now tp bf dp languages fs res fs' tr hdbg h).2
  · intro S loads dumps2 dumps0 oracle sfn src locale lcfg rest fs hdbg hex
    simp [translateLangLoop, hdbg, hex]

/-- Witness for C4: a concrete successful run followed by a no-op second
run; the one written path was fresh; a concrete locale with an existing
target file is skipped by the translator loop. -/
theorem generate_data_idempotent_resumption_witness :
    generate_data exSettings exLoads exDumps exGenOracles "t0" "config/tmpl.txt" "zodiacs"
        "config/data.json" (some ["eng"])
        (exGenFiles ++ [("data/eng_zodiacs.json", "SERIALIZED")]) =
      .ok ([("eng", "data/eng_zodiacs.json")],
           exGenFiles ++ [("data/eng_zodiacs.json", "SERIALIZED")], []) ∧
    ((∀ p ∈ writtenPaths [Ev.req exPrompt, Ev.sleep 1, Ev.write "data/eng_zodiacs.json"],
        fileExists exGenFiles p = false) ∧
      (writtenPaths [Ev.req exPrompt, Ev.sleep 1,
        Ev.write "data/eng_zodiacs.json"]).Nodup) ∧
    translateLangLoop exSettings exLoads exDumps exDumps exOracle "eng_z.json"
        (.vdict []) [("spa", .vdict [("name", .vstr "Spanish")])]
        (exTransFiles ++ [("data/spa_z.json", "X")]) =
      translateLangLoop exSettings exLoads exDumps exDumps exOracle "eng_z.json"
        (.vdict []) [] (exTransFiles ++ [("data/spa_z.json", "X")]) :=
  ⟨generate_data_idempotent_resumption.1 exSettings exLoads exDumps exGenOracles "t0"
      "config/tmpl.txt" "zodiacs" "config/data.json" (some ["eng"]) exGenFiles
      [("eng", "data/eng_zodiacs.json")]
      (exGenFiles ++ [("data/eng_zodiacs.json", "SERIALIZED")])
      [Ev.req exPrompt, Ev.sleep 1, Ev.write "data/eng_zodiacs.json"]
      rfl rfl (by decide) (by decide) (by decide),
   generate_data_idempotent_resumption.2.1 exSettings exLoads exDumps exGenOracles "t0"
      "config/tmpl.txt" "zodiacs" "config/data.json" (some ["eng"]) exGenFiles
      [("eng", "data/eng_zodiacs.json")]
      (exGenFiles ++ [("data/eng_zodiacs.json", "SERIALIZED")])
      [Ev.req exPrompt, Ev.sleep 1, Ev.write "data/eng_zodiacs.json"]
      rfl rfl,
   generate_data_idempotent_resumption.2.2 exSettings exLoads exDumps exDumps exOracle
      "eng_z.json" (.vdict []) "spa" (.vdict [("name", .vstr "Spanish")]) []
      (exTransFiles ++ [("data/spa_z.json", "X")]) rfl rfl⟩

/-!  ## C5: per-record failure isolation  -/

/-- C5: in a normal-mode language batch over `M` data records, a failing
request does not abort the batch: the result list still has exactly `M`
entries in source order, a failed record's content is `"Error: "` followed
by the exception message, and every other record's content is its stripped
response. -/
theorem generate_data_record_failure_isolation (S : Settings)
    (loads : String → Option PyVal) (oracle : Nat → String → Except String String)
    (fs : Files) (tmpl lc : String) (items : List PyVal) (res : List PyDict) (tr : List Ev)
    (hdbg : S.debug_mode = false)
    (h : process_language_items S loads oracle fs tmpl lc 0 items = .ok (res, tr)) :
    res.length = items.length ∧
    ∀ j, j < items.length → ∃ item key p,
      items[j]? = some item ∧
      recordKey item j = .ok key ∧
      buildPrompt S loads fs tmpl lc item = .ok p ∧
      (∀ e, oracle j p = .error e →
          res[j]? = some [("key", key), ("content", .vstr ("Error: " ++ e))]) ∧
      (∀ r, oracle j p = .ok r →
          res[j]? = some [("key", key), ("content", .vstr (pyStrip r))]) := by
  obtain ⟨prompts, hplen, hreslen, htr, hj⟩ :=
    process_language_items_spec S loads oracle fs tmpl lc hdbg items 0 res tr h
  refine ⟨hreslen, ?_⟩
  intro j hjlt
  obtain ⟨item, key, p, h1, h2, h3, h4, h5⟩ := hj j hjlt
  rw [Nat.zero_add] at h3 h5
  refine ⟨item, key, p, h1, h3, h4, ?_, ?_⟩
  · intro e he
    rw [he] at h5
    simpa using h5
  · intro r hr
    rw [hr] at h5
    simpa using h5

/-- Witness for C5: a concrete two-record batch whose first request fails
and whose second succeeds. -/
theorem generate_data_record_failure_isolation_witness :
    ([[("key", PyVal.vstr "aries"), ("content", PyVal.vstr "Error: boom")],
      [("key", PyVal.vstr "taurus"), ("content", PyVal.vstr "R1")]] : List PyDict).length =
      ([.vdict [("key", .vstr "aries")], .vdict [("key", .vstr "taurus")]] :
        List PyVal).length ∧
    ∀ j, j < ([.vdict [("key", .vstr "aries")], .vdict [("key", .vstr "taurus")]] :
        List PyVal).length → ∃ item key p,
      ([.vdict [("key", .vstr "aries")], .vdict [("key", .vstr "taurus")]] :
        List PyVal)[j]? = some item ∧
      recordKey item j = .ok key ∧
      buildPrompt exSettings exLoads exGenFiles "T" "eng" item = .ok p ∧
      (∀ e, exMixOracle j p = .error e →
          ([[("key", PyVal.vstr "aries"), ("content", PyVal.vstr "Error: boom")],
            [("key", PyVal.vstr "taurus"), ("content", PyVal.vstr "R1")]] :
            List PyDict)[j]? =
            some [("key", key), ("content", .vstr ("Error: " ++ e))]) ∧
      (∀ r, exMixOracle j p = .ok r →
          ([[("key", PyVal.vstr "aries"), ("content", PyVal.vstr "Error: boom")],
            [("key", PyVal.vstr "taurus"), ("content", PyVal.vstr "R1")]] :
            List PyDict)[j]? =
            some [("key", key), ("content", .vstr (pyStrip r))]) :=
  generate_data_record_failure_isolation exSettings exLoads exMixOracle exGenFiles "T" "eng"
    [.vdict [("key", .vstr "aries")], .vdict [("key", .vstr "taurus")]]
    [[("key", PyVal.vstr "aries"), ("content", PyVal.vstr "Error: boom")],
     [("key", PyVal.vstr "taurus"), ("content", PyVal.vstr "R1")]]
    [Ev.req exPrompt, Ev.req exPrompt, Ev.sleep 1] rfl rfl

/-!  ## C2: pacing delays and failed requests  -/

/-- C2 counterexample: a normal-mode batch with a positive configured delay
whose single request fails performs no suspension at all — the pacing sleep
(generator.py lines 217-219) sits inside the `try` block and is skipped when
the request raises, refuting "suspends after every record's request, whether
it succeeded or failed". -/
theorem generate_data_delay_counterexample :
    exSettings.debug_mode = false ∧
    (0 : ℚ) < exSettings.delay_between_requests ∧
    process_language_items exSettings exLoads exFailOracle exGenFiles "T" "eng" 0
        [.vdict [("key", .vstr "aries")]] =
      .ok ([[("key", .vstr "aries"), ("content", .vstr "Error: boom")]],
           [Ev.req exPrompt]) ∧
    ([Ev.req exPrompt].filter Ev.isSleep) = [] :=
  ⟨rfl, by norm_num [exSettings], rfl, rfl⟩

/-- C2 amended: in normal mode, `generate_data`'s record loop suspends for
`delay_between_requests` after a record's request exactly when that request
succeeded (and the configured delay is positive); after a failed request the
loop records the error and moves on without suspending.  `batchTrace`
exhibits the per-record trace shape. -/
theorem generate_data_delay_after_success (S : Settings) (loads : String → Option PyVal)
    (oracle : Nat → String → Except String String) (fs : Files) (tmpl lc : String)
    (items : List PyVal) (i : Nat) (res : List PyDict) (tr : List Ev)
    (hdbg : S.debug_mode = false)
    (h : process_language_items S loads oracle fs tmpl lc i items = .ok (res, tr)) :
    ∃ prompts : List String,
      prompts.length = items.length ∧
      (∀ j, j < items.length → ∃ item p, items[j]? = some item ∧ prompts[j]? = some p ∧
          buildPrompt S loads fs tmpl lc item = .ok p) ∧
      tr = batchTrace S oracle prompts i := by
  obtain ⟨prompts, hplen, hreslen, htr, hj⟩ :=
    process_language_items_spec S loads oracle fs tmpl lc hdbg items i res tr h
  refine ⟨prompts, hplen, ?_, htr⟩
  intro j hjlt
  obtain ⟨item, key, p, h1, h2, h3, h4, h5⟩ := hj j hjlt
  exact ⟨item, p, h1, h2, h4⟩

/-- Witness for C2 (amended) on the two-record batch with a failing first
request: the trace holds no sleep after the failure and one sleep after the
success. -/
theorem generate_data_delay_after_success_witness :
    ∃ prompts : List String,
      prompts.length = ([.vdict [("key", .vstr "aries")],
                         .vdict [("key", .vstr "taurus")]] : List PyVal).length ∧
      (∀ j, j < ([.vdict [("key", .vstr "aries")],
                  .vdict [("key", .vstr "taurus")]] : List PyVal).length →
          ∃ item p,
            ([.vdict [("key", .vstr "aries")],
              .vdict [("key", .vstr "taurus")]] : List PyVal)[j]? = some item ∧
            prompts[j]? = some p ∧
            buildPrompt exSettings exLoads exGenFiles "T" "eng" item = .ok p) ∧
      [Ev.req exPrompt, Ev.req exPrompt, Ev.sleep 1] =
        batchTrace exSettings exMixOracle prompts 0 :=
  generate_data_delay_after_success exSettings exLoads exMixOracle exGenFiles "T" "eng"
    [.vdict [("key", .vstr "aries")], .vdict [("key", .vstr "taurus")]] 0
    [[("key", PyVal.vstr "aries"), ("content", PyVal.vstr "Error: boom")],
     [("key", PyVal.vstr "taurus"), ("content", PyVal.vstr "R1")]]
    [Ev.req exPrompt, Ev.req exPrompt, Ev.sleep 1] rfl rfl

/-!  ## C3: the source-validation gate of the translator  -/

/-- C3 counterexample: a source file whose only record lacks `content` makes
`translate_file` abort before any LLM request (the trace is empty), but the
`ValueError` it raises carries only the count — its message is
`"Source file has 1 invalid items"` and does not name the offending record's
key `"aries"` (the keys go to the error log, translator.py lines 64-66, not
into the raised error, line 67). -/
theorem translate_file_abort_counterexample :
    translate_file exSettings exLoads exDumps exDumps exOracle exBadFiles "eng_bad.json" =
      ([], .error (.invalidItems [(.vstr "aries", "Missing \x27content\x27 field")])) ∧
    srcErrMsg (.invalidItems [(.vstr "aries", "Missing \x27content\x27 field")]) =
      "Source file has 1 invalid items" ∧
    strContains "Source file has 1 invalid items" "aries" = false :=
  ⟨rfl, rfl, by decide⟩

/-- C3 amended: if any record of the source file lacks a `content` field
that parses as JSON containing `title`, `one_liner` and `body_md`,
`translate_file` aborts before issuing any LLM request (empty event trace),
and the validation error it aborts with itemizes every offending record's
key and reason (written line by line to the error log); the raised
exception's message itself reports only the number of invalid records. -/
theorem translate_file_abort_on_invalid_source :
    (∀ (S : Settings) (loads : String → Option PyVal) (dumps2 dumps0 : PyVal → String)
        (oracle : String → Except String String) (fs : Files) (sfn txt : String)
        (sl src : PyVal) (its : List (PyVal × String)),
        load_support_languages loads fs = .ok sl →
        readFile fs ("data/" ++ sfn) = some txt →
        loads txt = some src →
        validate_source_file loads src = .error (.invalidItems its) →
        translate_file S loads dumps2 dumps0 oracle fs sfn =
          ([], .error (.invalidItems its))) ∧
    (∀ (loads : String → Option PyVal) (items : List PyVal) (its : List (PyVal × String)),
        collectInvalid loads items = .ok its →
        ∀ item ∈ items, ∀ p, checkItem loads item = .ok (some p) → p ∈ its) ∧
    (∀ its : List (PyVal × String),
        srcErrMsg (.invalidItems its) =
          "Source file has " ++ toString its.length ++ " invalid items") := by
  refine ⟨?_, ?_, fun its => rfl⟩
  · intro S loads dumps2 dumps0 oracle fs sfn txt sl src its hsl hrd hld hval
    simp [translate_file, load_source_file, hsl, hrd, hld, hval]
  · intro loads items
    induction items with
    | nil => intro its hcol item hmem; simp at hmem
    | cons hd tl ih =>
        intro its hcol item hmem p hchk
        cases hhd : checkItem loads hd with
        | error e => simp [collectInvalid, hhd, bind, Except.bind] at hcol
        | ok r =>
            cases hrest : collectInvalid loads tl with
            | error e => simp [collectInvalid, hhd, hrest, bind, Except.bind] at hcol
            | ok others =>
                rcases List.mem_cons.mp hmem with hmem | hmem
                · subst hmem
                  rw [hchk] at hhd
                  cases hhd
                  simp [collectInvalid, hchk, hrest, bind, Except.bind] at hcol
                  simp [← hcol]
                · have hp : p ∈ others := ih others hrest item hmem p hchk
                  cases r with
                  | none =>
                      simp [collectInvalid, hhd, hrest, bind, Except.bind] at hcol
                      simpa [← hcol] using hp
                  | some q =>
                      simp [collectInvalid, hhd, hrest, bind, Except.bind] at hcol
                      simp [← hcol, hp]

/-- Witness for C3 (amended) on the concrete bad source file. -/
theorem translate_file_abort_on_invalid_source_witness :
    translate_file exSettings exLoads exDumps exDumps exOracle exBadFiles "eng_bad.json" =
      ([], .error (.invalidItems [(.vstr "aries", "Missing \x27content\x27 field")])) ∧
    (.vstr "aries", "Missing \x27content\x27 field") ∈
      [((PyVal.vstr "aries"), "Missing \x27content\x27 field")] :=
  ⟨translate_file_abort_on_invalid_source.1 exSettings exLoads exDumps exDumps exOracle
      exBadFiles "eng_bad.json" "BADSRC"
      (.vdict [("spa", .vdict [("name", .vstr "Spanish")])])
      (.vdict [("generated_at", .vstr "t0"), ("language", .vstr "eng"),
               ("total_items", .vint 1),
               ("data", .vlist [.vdict [("key", .vstr "aries")]])])
      [(.vstr "aries", "Missing \x27content\x27 field")] rfl rfl rfl rfl,
   translate_file_abort_on_invalid_source.2.1 exLoads
      [.vdict [("key", .vstr "aries")]]
      [(.vstr "aries", "Missing \x27content\x27 field")] rfl
      (.vdict [("key", .vstr "aries")]) (by simp)
      (.vstr "aries", "Missing \x27content\x27 field") rfl⟩

/-!  ## Replacement lemmas for the template filler  -/

theorem replaceFuel_fuel_irrel (p : Char) (ps rep : List Char) :
    ∀ (fuel₁ : Nat) (s : List Char) (fuel₂ : Nat),
      s.length ≤ fuel₁ → s.length ≤ fuel₂ →
      replaceFuel p ps rep fuel₁ s = replaceFuel p ps rep fuel₂ s := by
  intro fuel₁
  induction fuel₁ with
  | zero =>
      intro s fuel₂ h1 h2
      have hs : s = [] := List.length_eq_zero.mp (Nat.le_zero.mp h1)
      subst hs
      cases fuel₂ <;> simp [replaceFuel]
  | succ f ih =>
      intro s fuel₂ h1 h2
      cases s with
      | nil => cases fuel₂ <;> simp [replaceFuel]
      | cons c cs =>
          cases fuel₂ with
          | zero => simp at h2
          | succ g =>
              have hcs₁ : cs.length ≤ f := by simpa using h1
              have hcs₂ : cs.length ≤ g := by simpa using h2
              by_cases hp : (p :: ps).isPrefixOf (c :: cs) = true
              · simp only [replaceFuel, hp, if_true]
                congr 1
                exact ih (cs.drop ps.length) g
                  (le_trans (by simp) hcs₁) (le_trans (by simp) hcs₂)
              · simp only [replaceFuel, hp, Bool.false_eq_true, if_false]
                congr 1
                exact ih cs g hcs₁ hcs₂

theorem replaceFuel_at_length (p : Char) (ps rep s : List Char) :
    replaceFuel p ps rep s.length s = replaceList (p :: ps) rep s := rfl

theorem replaceList_skip_lit (ps rep : List Char) :
    ∀ (l t : List Char), '{' ∉ l →
      replaceList ('{' :: ps) rep (l ++ t) = l ++ replaceList ('{' :: ps) rep t := by
  intro l
  induction l with
  | nil => intro t _; simp
  | cons c l' ih =>
      intro t h
      have hc : c ≠ '{' := fun hh => h (hh ▸ List.mem_cons_self c l')
      have hpre : ('{' :: ps).isPrefixOf (c :: (l' ++ t)) = false := by
        simp [List.isPrefixOf, Ne.symm hc]
      have hstep : replaceList ('{' :: ps) rep (c :: (l' ++ t)) =
          c :: replaceFuel '{' ps rep (l' ++ t).length (l' ++ t) := by
        simp only [replaceList, List.length_cons, replaceFuel, hpre, Bool.false_eq_true,
          if_false]
      simp only [List.cons_append]
      rw [hstep, replaceFuel_at_length, ih t (fun hh => h (List.mem_cons_of_mem c hh))]

theorem replaceList_hit (k rep t : List Char) :
    replaceList ('{' :: (k ++ ['}'])) rep ('{' :: (k ++ '}' :: t)) =
      rep ++ replaceList ('{' :: (k ++ ['}'])) rep t := by
  have hsplit : k ++ '}' :: t = (k ++ ['}']) ++ t := by simp
  have hpre : ('{' :: (k ++ ['}'])).isPrefixOf ('{' :: (k ++ '}' :: t)) = true := by
    have h1 : '{' :: (k ++ '}' :: t) = ('{' :: (k ++ ['}'])) ++ t := by simp
    rw [h1]
    exact List.isPrefixOf_iff_prefix.mpr (List.prefix_append _ _)
  have hdrop : (k ++ '}' :: t).drop (k ++ ['}']).length = t := by
    rw [hsplit]
    exact List.drop_left _ _
  have hlen : t.length ≤ (k ++ '}' :: t).length := by simp; omega
  simp only [replaceList, List.length_cons, replaceFuel, hpre, if_true, hdrop]
  congr 1
  rw [replaceFuel_fuel_irrel '{' (k ++ ['}']) rep ((k ++ '}' :: t).length) t t.length hlen
    (le_refl _)]

theorem prefix_mismatch (t : List Char) :
    ∀ (k k' : List Char), k ≠ k' → '}' ∉ k → '}' ∉ k' →
      (k ++ ['}']).isPrefixOf (k' ++ '}' :: t) = false := by
  intro k
  induction k with
  | nil =>
      intro k' hne h1 h2
      cases k' with
      | nil => exact absurd rfl hne
      | cons b k'' =>
          have hb : '}' ≠ b := fun hh => h2 (hh ▸ List.mem_cons_self b k'')
          simp [List.isPrefixOf, hb]
  | cons a k₁ ih =>
      intro k' hne h1 h2
      cases k' with
      | nil =>
          have ha : a ≠ '}' := fun hh => h1 (hh ▸ List.mem_cons_self a k₁)
          simp [List.isPrefixOf, ha]
      | cons b k₁' =>
          by_cases hab : a = b
          · subst hab
            have hne' : k₁ ≠ k₁' := fun hh => hne (by rw [hh])
            have h1' : '}' ∉ k₁ := fun hh => h1 (List.mem_cons_of_mem a hh)
            have h2' : '}' ∉ k₁' := fun hh => h2 (List.mem_cons_of_mem a hh)
            simp [List.isPrefixOf, ih k₁' hne' h1' h2']
          · simp [List.isPrefixOf, hab]

theorem replaceList_miss (k rep k' t : List Char)
    (hne : k' ≠ k) (hk : braceFree k) (hk' : braceFree k') :
    replaceList ('{' :: (k ++ ['}'])) rep ('{' :: (k' ++ '}' :: t)) =
      '{' :: (k' ++ '}' :: replaceList ('{' :: (k ++ ['}'])) rep t) := by
  have hpre : ('{' :: (k ++ ['}'])).isPrefixOf ('{' :: (k' ++ '}' :: t)) = false := by
    simp only [List.isPrefixOf, Bool.and_eq_true, beq_self_eq_true, true_and,
      Bool.and_eq_false_iff]
    simp [prefix_mismatch t k k' (Ne.symm hne) hk.2 hk'.2]
  have hstep : replaceList ('{' :: (k ++ ['}'])) rep ('{' :: (k' ++ '}' :: t)) =
      '{' :: replaceFuel '{' (k ++ ['}']) rep (k' ++ '}' :: t).length (k' ++ '}' :: t) := by
    simp only [replaceList, List.length_cons, replaceFuel, hpre, Bool.false_eq_true, if_false]
  rw [hstep, replaceFuel_at_length]
  have hlb : '{' ∉ k' ++ ['}'] := by
    intro hh
    rcases List.mem_append.mp hh with hh | hh
    · exact hk'.1 hh
    · simp at hh
  have : replaceList ('{' :: (k ++ ['}'])) rep ((k' ++ ['}']) ++ t) =
      (k' ++ ['}']) ++ replaceList ('{' :: (k ++ ['}'])) rep t :=
    replaceList_skip_lit (k ++ ['}']) rep (k' ++ ['}']) t hlb
  simpa using this

theorem replaceList_segs (k rep : List Char) (hk : braceFree k) :
    ∀ segs : List Seg, (∀ seg ∈ segs, SegOK seg) →
      replaceList ('{' :: (k ++ ['}'])) rep (flatSegs segs) =
        flatSegs (segs.map (substSeg k rep)) := by
  intro segs
  induction segs with
  | nil => intro _; simp [flatSegs, replaceList, replaceFuel]
  | cons seg rest ih =>
      intro h
      have hseg := h seg (List.mem_cons_self seg rest)
      have hrest := fun s hs => h s (List.mem_cons_of_mem seg hs)
      cases seg with
      | lit s =>
          have hflat : flatSegs (Seg.lit s :: rest) = s ++ flatSegs rest := by
            simp [flatSegs, Seg.flat]
          rw [hflat, replaceList_skip_lit _ _ _ _ hseg.1, ih hrest]
          simp [flatSegs, substSeg, Seg.flat]
      | ph k' =>
          have hflat : flatSegs (Seg.ph k' :: rest) = '{' :: (k' ++ '}' :: flatSegs rest) := by
            simp [flatSegs, Seg.flat]
          by_cases hkk : k' = k
          · subst hkk
            rw [hflat, replaceList_hit, ih hrest]
            simp [flatSegs, substSeg, Seg.flat]
          · rw [hflat, replaceList_miss k rep k' _ hkk hk hseg, ih hrest]
            simp [flatSegs, substSeg, hkk, Seg.flat]

theorem dictLookup_mem (flds : PyDict) (k : String) (v : PyVal)
    (h : dictLookup flds k = some v) : (k, v) ∈ flds := by
  induction flds with
  | nil => simp [dictLookup] at h
  | cons hd tl ih =>
      obtain ⟨k', v'⟩ := hd
      by_cases hk : k' = k
      · subst hk
        simp [dictLookup] at h
        simp [h]
      · simp [dictLookup, hk] at h
        exact List.mem_cons_of_mem _ (ih h)

theorem fillFold_segs :
    ∀ (flds : PyDict) (segs : List Seg),
      (∀ kv ∈ flds, braceFree kv.1.data ∧ braceFree (valueText kv.2).data) →
      (∀ seg ∈ segs, SegOK seg) →
      fillFold flds (String.mk (flatSegs segs)) =
        String.mk (flatSegs (segs.map (substAllSegs flds))) := by
  intro flds
  induction flds with
  | nil =>
      intro segs _ _
      have hid : segs.map (substAllSegs []) = segs.map id :=
        List.map_congr_left (fun seg _ => by
          cases seg <;> simp [substAllSegs, dictLookup, id])
      simp [fillFold, hid]
  | cons hd restF ih =>
      obtain ⟨k₀, v₀⟩ := hd
      intro segs hflds hsegs
      have hk₀ := hflds (k₀, v₀) (List.mem_cons_self _ _)
      have hfldsRest : ∀ kv ∈ restF, braceFree kv.1.data ∧ braceFree (valueText kv.2).data :=
        fun kv hkv => hflds kv (List.mem_cons_of_mem _ hkv)
      have hdata : ("\x7b" ++ k₀ ++ "\x7d").data = '{' :: (k₀.data ++ ['}']) := by
        simp [String.data_append]
      have hrepl : pyReplace (String.mk (flatSegs segs)) ("\x7b" ++ k₀ ++ "\x7d")
          (valueText v₀) =
          String.mk (flatSegs (segs.map (substSeg k₀.data (valueText v₀).data))) := by
        simp only [pyReplace, hdata]
        rw [replaceList_segs k₀.data (valueText v₀).data hk₀.1 segs hsegs]
      have hsegs' : ∀ seg ∈ segs.map (substSeg k₀.data (valueText v₀).data), SegOK seg := by
        intro seg hseg
        rw [List.mem_map] at hseg
        obtain ⟨s₀, hs₀, rfl⟩ := hseg
        cases s₀ with
        | lit s => exact hsegs _ hs₀
        | ph k' =>
            by_cases hkk : k' = k₀.data
            · simpa [substSeg, hkk, SegOK] using hk₀.2
            · simpa [substSeg, hkk, SegOK] using hsegs _ hs₀
      have hpoint : ∀ seg ∈ segs,
          substAllSegs restF (substSeg k₀.data (valueText v₀).data seg) =
            substAllSegs ((k₀, v₀) :: restF) seg := by
        intro seg _
        cases seg with
        | lit s => simp [substSeg, substAllSegs]
        | ph k =>
            by_cases hkk : k = k₀.data
            · subst hkk
              simp [substSeg, substAllSegs, dictLookup]
            · have hne : ¬ (k₀ = String.mk k) := fun hh => hkk (by simp [hh])
              simp [substSeg, substAllSegs, hkk, dictLookup, hne]
      calc fillFold ((k₀, v₀) :: restF) (String.mk (flatSegs segs))
          = fillFold restF (pyReplace (String.mk (flatSegs segs))
              ("\x7b" ++ k₀ ++ "\x7d") (valueText v₀)) := by rw [fillFold]
        _ = fillFold restF
              (String.mk (flatSegs (segs.map (substSeg k₀.data (valueText v₀).data)))) := by
              rw [hrepl]
        _ = String.mk (flatSegs ((segs.map (substSeg k₀.data (valueText v₀).data)).map
              (substAllSegs restF))) := ih _ hfldsRest hsegs'
        _ = String.mk (flatSegs (segs.map (substAllSegs ((k₀, v₀) :: restF)))) := by
              rw [List.map_map]
              congr 1
              congr 1
              exact List.map_congr_left hpoint

/-!  ## C8: exhaustiveness of placeholder replacement  -/

/-- C8 counterexample: sequential replacement can reintroduce placeholders.
Filling the template `"{key}"` with the record
`{"element": "fire", "key": "{element}"}` first replaces `{element}`
(no occurrence), then replaces `{key}` by the value text `"{element}"`;
the result is exactly `"{element}"`, which still contains the placeholder
`{element}` of the present field `element`, refuting "the result contains no
remaining `{k}` for any field present in the record". -/
theorem fill_no_remaining_placeholder_counterexample :
    fill_template_value exSettings exLoads [] "{key}"
        (.vdict [("element", .vstr "fire"), ("key", .vstr "{element}")]) none =
      .ok "{element}" ∧
    dictLookup [("element", PyVal.vstr "fire"), ("key", PyVal.vstr "{element}")]
        "element" = some (.vstr "fire") ∧
    strContains "{element}" "{element}" = true :=
  ⟨rfl, rfl, by decide⟩

/-- The template filler with no language code is exactly the record fold. -/
theorem fill_template_value_none (S : Settings) (loads : String → Option PyVal)
    (fs : Files) (template : String) (flds : PyDict) :
    fill_template_value S loads fs template (.vdict flds) none =
      .ok (fillFold flds template) := by
  simp [fill_template_value, optStrTruthy, namesSection, pyIn, asDict,
    bind, Except.bind]

/-- C8 amended: `fill_template_placeholders` replaces placeholders by
sequentially substituting each field, so a field value whose text itself
contains a placeholder can reintroduce one (see the counterexample).  For
templates made of brace-free literals and placeholders of present fields,
filled with records whose field names and value texts are brace-free, the
result contains no brace at all and hence no remaining `{k}` for any field
`k` of the record; and the concrete scenario holds:
`fill("Sign: {key}, Element: {element}", {key: aries, element: fire})`
yields `"Sign: aries, Element: fire"`. -/
theorem fill_replaces_all_present_placeholders :
    (∀ (S : Settings) (loads : String → Option PyVal) (fs : Files) (segs : List Seg)
        (flds : PyDict) (out : String),
        (∀ seg ∈ segs, SegOK seg) →
        (∀ kv ∈ flds, braceFree kv.1.data ∧ braceFree (valueText kv.2).data) →
        (∀ seg ∈ segs, phCovered flds seg) →
        fill_template_value S loads fs (String.mk (flatSegs segs)) (.vdict flds) none =
          .ok out →
        ∀ kv ∈ flds, strContains out ("\x7b" ++ kv.1 ++ "\x7d") = false) ∧
    fill_template_value exSettings exLoads [] "Sign: {key}, Element: {element}"
        (.vdict [("key", .vstr "aries"), ("element", .vstr "fire")]) none =
      .ok "Sign: aries, Element: fire" := by
  constructor
  · intro S loads fs segs flds out hsegs hflds hcov hfill kv hkv
    rw [fill_template_value_none, Except.ok.injEq] at hfill
    rw [fillFold_segs flds segs hflds hsegs] at hfill
    subst hfill
    have hnolb : '{' ∉ flatSegs (segs.map (substAllSegs flds)) := by
      intro hmem
      rw [flatSegs, List.mem_flatten] at hmem
      obtain ⟨l, hl, hcl⟩ := hmem
      rw [List.mem_map] at hl
      obtain ⟨seg', hseg', rfl⟩ := hl
      rw [List.mem_map] at hseg'
      obtain ⟨seg, hseg, rfl⟩ := hseg'
      cases seg with
      | lit s => exact (hsegs _ hseg).1 (by simpa [substAllSegs, Seg.flat] using hcl)
      | ph k =>
          have hc := hcov _ hseg
          rw [phCovered, Option.isSome_iff_exists] at hc
          obtain ⟨v, hv⟩ := hc
          have hbf := (hflds _ (dictLookup_mem flds (String.mk k) v hv)).2
          rw [substAllSegs, hv] at hcl
          exact hbf.1 (by simpa [Seg.flat] using hcl)
    cases hsc : strContains (String.mk (flatSegs (segs.map (substAllSegs flds))))
        ("\x7b" ++ kv.1 ++ "\x7d") with
    | false => rfl
    | true =>
        exfalso
        have hinf : ("\x7b" ++ kv.1 ++ "\x7d").data <:+:
            (String.mk (flatSegs (segs.map (substAllSegs flds)))).data := by
          simpa [strContains] using hsc
        have hlb : '{' ∈ ("\x7b" ++ kv.1 ++ "\x7d").data := by
          simp [String.data_append]
        exact hnolb (hinf.subset hlb)
  · rfl

/-- Witness for C8 (amended) at the specified scenario template. -/
theorem fill_replaces_all_present_placeholders_witness :
    ∀ kv ∈ ([("key", PyVal.vstr "aries"), ("element", PyVal.vstr "fire")] : PyDict),
      strContains "Sign: aries, Element: fire" ("\x7b" ++ kv.1 ++ "\x7d") = false :=
  fill_replaces_all_present_placeholders.1 exSettings exLoads []
    [Seg.lit "Sign: ".data, Seg.ph "key".data, Seg.lit ", Element: ".data,
     Seg.ph "element".data]
    [("key", .vstr "aries"), ("element", .vstr "fire")]
    "Sign: aries, Element: fire"
    (by decide) (by decide) (by decide) rfl

/-!  ## C9: the total_items invariant of produced OutputFiles  -/

theorem translateItemsLoop_length (S : Settings) (loads : String → Option PyVal)
    (dumps2 dumps0 : PyVal → String) (oracle : String → Except String String) (fs : Files)
    (target : String) :
    ∀ (items : List PyVal) (tr : List Ev) (tis : List PyDict),
      translateItemsLoop S loads dumps2 dumps0 oracle fs target items = (tr, .ok tis) →
      tis.length = items.length := by
  intro items
  induction items with
  | nil =>
      intro tr tis h
      simp [translateItemsLoop, Prod.ext_iff] at h
      simp [h.2]
  | cons item rest ih =>
      intro tr tis h
      cases hd : asDict item with
      | error e => simp [translateItemsLoop, hd, Prod.ext_iff] at h
      | ok d =>
          rcases hti : translate_data_item S loads dumps2 dumps0 oracle fs d target with ⟨tr₁, r₁⟩
          cases r₁ with
          | error e => simp [translateItemsLoop, hd, hti, Prod.ext_iff] at h
          | ok ti =>
              rcases hrest : translateItemsLoop S loads dumps2 dumps0 oracle fs target rest
                with ⟨tr₂, r₂⟩
              cases r₂ with
              | error e => simp [translateItemsLoop, hd, hti, hrest, Prod.ext_iff] at h
              | ok tis₂ =>
                  simp [translateItemsLoop, hd, hti, hrest, Prod.ext_iff] at h
                  rw [← h.2]
                  simp [ih tr₂ tis₂ hrest]

/-- C9 counterexample: a source file that passes validation but carries
`total_items = 5` over a single data record makes `translate_file` persist
an OutputFile whose `total_items` (5) differs from the length of its `data`
sequence (1), refuting the invariant for system-produced files. -/
theorem outputfile_invariant_counterexample :
    translateLocaleData exSettings exLoads exDumps exDumps exOracle exTransFiles
        (.vdict [("generated_at", .vstr "t0"), ("language", .vstr "eng"),
                 ("total_items", .vint 5),
                 ("data", .vlist [.vdict [("key", .vstr "aries"),
                                          ("content", .vstr "GOODCONTENT")]])])
        "spa" "Spanish" =
      ([Ev.req "TP", Ev.sleep 1],
       .ok [("generated_at", .vstr "t0"), ("language", .vstr "spa"),
            ("total_items", .vint 5),
            ("data", .vlist [.vdict [("key", .vstr "aries"),
                                     ("content", .vstr "GOODCONTENT")]])]) ∧
    validate_source_file exLoads
        (.vdict [("generated_at", .vstr "t0"), ("language", .vstr "eng"),
                 ("total_items", .vint 5),
                 ("data", .vlist [.vdict [("key", .vstr "aries"),
                                          ("content", .vstr "GOODCONTENT")]])]) = .ok () ∧
    translate_file exSettings exLoads exDumps exDumps exOracle exTransFiles "eng_z.json" =
      ([Ev.req "TP", Ev.sleep 1, Ev.write "data/spa_z.json"],
       .ok [("config/support_languages.json", "SUPP"),
            ("config/translation_prompt.txt", "TP"),
            ("data/eng_z.json", "SKEWSRC"),
            ("data/spa_z.json", "SERIALIZED")]) ∧
    (5 : Int) ≠
      ([PyVal.vdict [("key", .vstr "aries"),
                     ("content", .vstr "GOODCONTENT")]].length : Int) :=
  ⟨rfl, rfl, rfl, by decide⟩

/-- C9 amended: an OutputFile written by `save_results` always satisfies
`total_items = length data`; an OutputFile produced by `translate_file`
carries the source's `total_items` over one translated record per source
record, so it satisfies the invariant whenever the validated source file
itself does (in particular for sources that `save_results` wrote). -/
theorem outputfile_invariant_amended :
    (∀ (results : List PyDict) (lc now : String),
        pyGet (save_results results lc now) "total_items" = .ok (.vint results.length) ∧
        pyGet (save_results results lc now) "data" =
          .ok (.vlist (results.map .vdict)) ∧
        (results.map PyVal.vdict).length = results.length) ∧
    (∀ (S : Settings) (loads : String → Option PyVal) (dumps2 dumps0 : PyVal → String)
        (oracle : String → Except String String) (fs : Files) (src : PyVal)
        (locale name : String) (tr : List Ev) (td : PyDict) (dval : PyVal)
        (items : List PyVal),
        pyGetD src "total_items" (.vint 0) = .ok (.vint items.length) →
        pyGetD src "data" (.vlist []) = .ok dval →
        pyIterate dval = .ok items →
        translateLocaleData S loads dumps2 dumps0 oracle fs src locale name =
          (tr, .ok td) →
        ∃ tis : List PyDict, tis.length = items.length ∧
          dictLookup td "total_items" = some (.vint items.length) ∧
          dictLookup td "data" = some (.vlist (tis.map .vdict))) := by
  constructor
  · intro results lc now
    simp [save_results, pyGet, dictLookup]
  · intro S loads dumps2 dumps0 oracle fs src locale name tr td dval items h1 h2 h3 h5
    cases hg : pyGetD src "generated_at" (.vstr "") with
    | error e =>
        simp [translateLocaleData, hg, Prod.ext_iff, bind, Except.bind] at h5
    | ok g =>
        rcases hloop : translateItemsLoop S loads dumps2 dumps0 oracle fs name items
          with ⟨tr₁, r₁⟩
        cases r₁ with
        | error e =>
            simp [translateLocaleData, hg, h1, h2, h3, hloop, Prod.ext_iff,
              bind, Except.bind, Functor.map, Except.map, pure, Except.pure] at h5
        | ok tis =>
            simp [translateLocaleData, hg, h1, h2, h3, hloop, Prod.ext_iff,
              bind, Except.bind, Functor.map, Except.map, pure, Except.pure] at h5
            refine ⟨tis, translateItemsLoop_length S loads dumps2 dumps0 oracle fs name
              items tr₁ tis hloop, ?_⟩
            rw [← h5.2]
            simp [dictLookup]

/-- Witness for C9 amended, at an empty generation batch and at a concrete
source file whose `total_items` matches its one record. -/
theorem outputfile_invariant_amended_witness :
    (pyGet (save_results [] "eng" "t0") "total_items" =
        .ok (.vint ([] : List PyDict).length) ∧
     pyGet (save_results [] "eng" "t0") "data" =
        .ok (.vlist (([] : List PyDict).map .vdict)) ∧
     (([] : List PyDict).map PyVal.vdict).length = ([] : List PyDict).length) ∧
    (∃ tis : List PyDict,
        tis.length = [PyVal.vdict [("key", .vstr "aries"),
                                   ("content", .vstr "GOODCONTENT")]].length ∧
        dictLookup [("generated_at", PyVal.vstr "t0"), ("language", PyVal.vstr "spa"),
                    ("total_items", PyVal.vint 1),
                    ("data", PyVal.vlist [.vdict [("key", .vstr "aries"),
                                                  ("content", .vstr "GOODCONTENT")]])]
            "total_items" =
          some (.vint [PyVal.vdict [("key", .vstr "aries"),
                                    ("content", .vstr "GOODCONTENT")]].length) ∧
        dictLookup [("generated_at", PyVal.vstr "t0"), ("language", PyVal.vstr "spa"),
                    ("total_items", PyVal.vint 1),
                    ("data", PyVal.vlist [.vdict [("key", .vstr "aries"),
                                                  ("content", .vstr "GOODCONTENT")]])]
            "data" = some (.vlist (tis.map .vdict))) :=
  ⟨outputfile_invariant_amended.1 [] "eng" "t0",
   outputfile_invariant_amended.2 exSettings exLoads exDumps exDumps exOracle exTransFiles
     (.vdict [("generated_at", .vstr "t0"), ("language", .vstr "eng"),
              ("total_items", .vint 1),
              ("data", .vlist [.vdict [("key", .vstr "aries"),
                                       ("content", .vstr "GOODCONTENT")]])])
     "spa" "Spanish" [Ev.req "TP", Ev.sleep 1]
     [("generated_at", .vstr "t0"), ("language", .vstr "spa"),
      ("total_items", .vint 1),
      ("data", .vlist [.vdict [("key", .vstr "aries"),
                               ("content", .vstr "GOODCONTENT")]])]
     (.vlist [.vdict [("key", .vstr "aries"), ("content", .vstr "GOODCONTENT")]])
     [.vdict [("key", .vstr "aries"), ("content", .vstr "GOODCONTENT")]]
     rfl rfl rfl rfl⟩

end LoreGen
